import Mathlib

/-!
# Verification of the libtsm VT emulator core (src/tsm/tsm-vte.c)

This file is a shallow embedding of the input interpreter of `tsm-vte.c`:
the Paul-Williams parser state machine, the CSI/ESC/OSC/SGR dispatchers,
the charset mapping, save/restore state, the soft/hard reset, the outbound
writer with local echo, and the keyboard encoder.  Machine integers are
embedded as `Nat`/`Int` with explicit truncation where the C code
truncates; the external screen object (tsm-screen.c is not part of this
translation unit) is embedded as a cursor pair plus a trace of the screen
calls the VTE issues, and the write callback as an accumulated byte list.

Each C `switch` over a numeric scrutinee is embedded in two stages: a
`...Tag` function mapping the scrutinee to the selected case label, and a
`match` on that label performing the case body.  This is only a
presentation of the same dispatch: the tag function enumerates exactly the
`case` labels of the source.

Definitions carry the names of the C functions they embed wherever Lean
allows.  Definitions whose C source lives outside `tsm-vte.c` (the screen,
the UTF-8 machine of tsm-unicode.c, the static charset tables and the
header constants) are marked `Modelled from the spec:` in their doc
comment.
-/

/-- Parser states, from `enum parser_state`. -/
inductive PState where
  | none | ground | esc | escInt
  | csiEntry | csiParam | csiInt | csiIgnore
  | dcsEntry | dcsParam | dcsInt | dcsPass | dcsIgnore
  | oscString | stIgnore
deriving DecidableEq

/-- Parser actions, from `enum parser_action`. -/
inductive PAction where
  | none | ignore | print | execute | clear | collect | param
  | escDispatch | csiDispatch
  | dcsStart | dcsCollect | dcsEnd
  | oscStart | oscCollect | oscEnd
deriving DecidableEq

/-- The four G-set slots.  In C, `gl`/`gr`/`glt`/`grt` are pointers that are
only ever assigned the addresses of `g0`..`g3`; the slot identity is what
the code manipulates, so the pointer is embedded as this enumeration. -/
inductive GSlot where
  | g0 | g1 | g2 | g3
deriving DecidableEq

/-- The static charset tables referenced from tsm-vte.c.
`tsm_vte_charset` pointers only ever denote one of these four tables. -/
inductive Charset where
  | unicodeLower | unicodeUpper | decSpecialGraphics | decSupplementalGraphics
deriving DecidableEq

/-- Modelled from the spec: the contents of the static charset tables live
in a separate file (only their identity matters to the dispatcher); the
spec fixes Unicode-lower as the identity translation (GL offset 32), and
the GR-oriented tables are embedded as the identity on the GR range.
No claim depends on the table contents, only on which table is selected. -/
def charsetAt : Charset → Nat → Nat
  | .unicodeLower, i => i + 32
  | .unicodeUpper, i => i + 160
  | .decSpecialGraphics, i => i + 32
  | .decSupplementalGraphics, i => i + 160

/-- Screen flags passed to `tsm_screen_set_flags`/`tsm_screen_reset_flags`.
Modelled from the spec: the numeric values live in libtsm.h; only their
identity matters here. -/
inductive ScreenFlag where
  | insertMode | autoWrap | inverse | hideCursor | relOrigin | alternate
deriving DecidableEq

/-- Cell attribute, from `struct tsm_screen_attr`.  `fccode`/`bccode` are
`int8_t` color codes (−1 means explicit RGB); the color components are
`uint8_t`; the six style bits are embedded as `Bool`. -/
structure Attr where
  fccode : Int
  bccode : Int
  fr : Nat
  fg : Nat
  fb : Nat
  br : Nat
  bg : Nat
  bb : Nat
  bold : Bool
  underline : Bool
  italic : Bool
  inverse : Bool
  protect : Bool
  blink : Bool
deriving DecidableEq

/-- One call issued to the external screen object.  Modelled from the spec:
the screen is an external collaborator, so the embedding records every
`tsm_screen_*` mutation the VTE issues, in call order. -/
inductive ScreenOp where
  | moveTo (x y : Nat)
  | moveUp (n : Nat) (scroll : Bool)
  | moveDown (n : Nat) (scroll : Bool)
  | moveLeft (n : Nat)
  | moveRight (n : Nat)
  | newline
  | lineHome
  | scrollUp (n : Nat)
  | scrollDown (n : Nat)
  | tabLeft (n : Nat)
  | tabRight (n : Nat)
  | setTabstop
  | resetTabstop
  | resetAllTabstops
  | setMargins (top bottom : Nat)
  | insertLines (n : Nat)
  | deleteLines (n : Nat)
  | insertChars (n : Nat)
  | deleteChars (n : Nat)
  | eraseChars (n : Nat)
  | eraseCursorToEnd (protect : Bool)
  | eraseHomeToCursor (protect : Bool)
  | eraseCurrentLine (protect : Bool)
  | eraseCursorToScreen (protect : Bool)
  | eraseScreenToCursor (protect : Bool)
  | eraseScreen (protect : Bool)
  | clearScrollback
  | write (sym : Nat) (attr : Attr)
  | setDefAttr (attr : Attr)
  | setFlags (f : ScreenFlag)
  | resetFlags (f : ScreenFlag)
  | reset
deriving DecidableEq

/-- Modelled from the spec: the borrowed screen, reduced to the state the
VTE reads back (the cursor position, maintained here by `move_to`) plus the
trace of issued calls. -/
structure Screen where
  cursor_x : Nat
  cursor_y : Nat
  events : List ScreenOp
deriving DecidableEq

/-- The terminal flag word, from the `FLAG_*` bitmask; each bit is embedded
as one named boolean. -/
structure VteFlags where
  cursor_key : Bool
  keypad_application : Bool
  lnm : Bool
  mode8bit : Bool
  mode7bit : Bool
  use_c1 : Bool
  kam : Bool
  irm : Bool
  srm : Bool
  text_cursor : Bool
  inverse_screen : Bool
  origin : Bool
  auto_wrap : Bool
  auto_repeat : Bool
  ncm : Bool
  bce : Bool
  prepend_escape : Bool
  tite_inhibit : Bool
deriving DecidableEq

/-- The all-clear flag word (`vte->flags = 0`). -/
def VteFlags.zero : VteFlags :=
  ⟨false, false, false, false, false, false, false, false, false,
   false, false, false, false, false, false, false, false, false⟩

/-- Saved DECSC state, from `struct vte_saved_state`. -/
structure SavedState where
  cursor_x : Nat
  cursor_y : Nat
  cattr : Attr
  gl : GSlot
  gr : GSlot
  wrap_mode : Bool
  origin_mode : Bool
deriving DecidableEq

/-- Modelled from the spec: the UTF-8 decoder state of tsm-unicode.c,
reduced to the remaining-continuation count and the partial codepoint;
a complete or rejected sequence yields a codepoint (U+FFFD on reject). -/
structure Utf8Mach where
  rem : Nat
  cp : Nat
deriving DecidableEq

/-- Modelled from the spec: feed one byte to the UTF-8 machine; `some c`
when ACCEPT or REJECT is reached (REJECT yields the replacement char). -/
def utf8_feed (m : Utf8Mach) (b : Nat) : Utf8Mach × Option Nat :=
  if m.rem = 0 then
    if b < 0x80 then (⟨0, 0⟩, some b)
    else if 0xc0 ≤ b ∧ b < 0xe0 then (⟨1, b % 32⟩, none)
    else if 0xe0 ≤ b ∧ b < 0xf0 then (⟨2, b % 16⟩, none)
    else if 0xf0 ≤ b ∧ b < 0xf8 then (⟨3, b % 8⟩, none)
    else (⟨0, 0⟩, some 0xfffd)
  else if 0x80 ≤ b ∧ b < 0xc0 then
    let c := m.cp * 64 + b % 64
    if m.rem = 1 then (⟨0, 0⟩, some c) else (⟨m.rem - 1, c⟩, none)
  else (⟨0, 0⟩, some 0xfffd)

/-- CSI intermediate flags, from the `CSI_*` defines. -/
def CSI_BANG : Nat := 0x0001
def CSI_CASH : Nat := 0x0002
def CSI_WHAT : Nat := 0x0004
def CSI_GT : Nat := 0x0008
def CSI_SPACE : Nat := 0x0010
def CSI_SQUOTE : Nat := 0x0020
def CSI_DQUOTE : Nat := 0x0040
def CSI_MULT : Nat := 0x0080
def CSI_PLUS : Nat := 0x0100
def CSI_POPEN : Nat := 0x0200
def CSI_PCLOSE : Nat := 0x0400

/-- `CSI_ARG_MAX`. -/
def CSI_ARG_MAX : Nat := 16

/-- `OSC_MAX_LEN`. -/
def OSC_MAX_LEN : Nat := 128

/-- Modelled from the spec: `enum tsm_vte_color` of libtsm.h — sixteen
named colors in table order, then the FOREGROUND and BACKGROUND slots. -/
def TSM_COLOR_FOREGROUND : Nat := 16

/-- Modelled from the spec: the BACKGROUND palette slot. -/
def TSM_COLOR_BACKGROUND : Nat := 17

/-- Modelled from the spec: the palette size `TSM_COLOR_NUM`. -/
def TSM_COLOR_NUM : Nat := 18

/-- The built-in VGA-like palette `color_palette` of tsm-vte.c. -/
def color_palette : Nat → Nat × Nat × Nat
  | 0 => (0, 0, 0)
  | 1 => (205, 0, 0)
  | 2 => (0, 205, 0)
  | 3 => (205, 205, 0)
  | 4 => (0, 0, 238)
  | 5 => (205, 0, 205)
  | 6 => (0, 205, 205)
  | 7 => (229, 229, 229)
  | 8 => (127, 127, 127)
  | 9 => (255, 0, 0)
  | 10 => (0, 255, 0)
  | 11 => (255, 255, 0)
  | 12 => (92, 92, 255)
  | 13 => (255, 0, 255)
  | 14 => (0, 255, 255)
  | 15 => (255, 255, 255)
  | 16 => (229, 229, 229)
  | _ => (0, 0, 0)

/-- The VTE instance, from `struct tsm_vte`.  The reply bytes handed to the
write callback are accumulated in `out`; the borrowed screen is the `con`
field; `parse_cnt` is the local-echo re-entry counter. -/
structure VTE where
  state : PState
  csi_argc : Nat
  csi_argv : Nat → Int
  csi_flags : Nat
  osc_len : Nat
  osc_arg : List Nat
  flags : VteFlags
  mach : Utf8Mach
  parse_cnt : Nat
  palette : Nat → Nat × Nat × Nat
  def_attr : Attr
  cattr : Attr
  gl : GSlot
  gr : GSlot
  glt : Option GSlot
  grt : Option GSlot
  g0 : Charset
  g1 : Charset
  g2 : Charset
  g3 : Charset
  saved_state : SavedState
  alt_cursor_x : Nat
  alt_cursor_y : Nat
  con : Screen
  out : List Nat

/-- Append one call to the screen trace. -/
def emit (v : VTE) (e : ScreenOp) : VTE :=
  { v with con := { v.con with events := v.con.events ++ [e] } }

/-- `tsm_screen_move_to`: records the call and updates the cursor the VTE
reads back through `tsm_screen_get_cursor_x/y`. -/
def screen_move_to (v : VTE) (x y : Nat) : VTE :=
  { v with con := { cursor_x := x, cursor_y := y,
                    events := v.con.events ++ [ScreenOp.moveTo x y] } }

/-- Store a CSI parameter slot (`vte->csi_argv[i] = x`). -/
def setArg (v : VTE) (i : Nat) (x : Int) : VTE :=
  { v with csi_argv := fun j => if j = i then x else v.csi_argv j }

/-- `to_rgb`: resolve a color-coded attribute against the palette; bold
converts a dark color code into its light counterpart, out-of-range codes
fall back to the FOREGROUND/BACKGROUND slots. -/
def to_rgb (pal : Nat → Nat × Nat × Nat) (a : Attr) : Attr :=
  let a :=
    if 0 ≤ a.fccode then
      let code := if a.bold ∧ a.fccode < 8 then a.fccode + 8 else a.fccode
      let code := if 18 ≤ code then (TSM_COLOR_FOREGROUND : Int) else code
      { a with fr := (pal code.toNat).1, fg := (pal code.toNat).2.1,
               fb := (pal code.toNat).2.2 }
    else a
  if 0 ≤ a.bccode then
    let code := if 18 ≤ a.bccode then (TSM_COLOR_BACKGROUND : Int) else a.bccode
    { a with br := (pal code.toNat).1, bg := (pal code.toNat).2.1,
             bb := (pal code.toNat).2.2 }
  else a

/-- `copy_fcolor`. -/
def copy_fcolor (dest src : Attr) : Attr :=
  { dest with fccode := src.fccode, fr := src.fr, fg := src.fg, fb := src.fb }

/-- `copy_bcolor`. -/
def copy_bcolor (dest src : Attr) : Attr :=
  { dest with bccode := src.bccode, br := src.br, bg := src.bg, bb := src.bb }

/-- The non-echo tail of `vte_write_debug`: prepend ESC when the
prepend-escape flag is set, hand the payload to the write callback, clear
the flag.  This is the writer as executed at every call site inside input
processing, where `parse_cnt` is non-zero and the local-echo branch of
`vte_write_debug` is dynamically dead. -/
def vte_write_in_parse (v : VTE) (payload : List Nat) : VTE :=
  { v with
    out := v.out ++ (if v.flags.prepend_escape then [0x1b] else []) ++ payload,
    flags := { v.flags with prepend_escape := false } }

/-- `write_console`: resolve the current attribute in place and write the
glyph to the screen. -/
def write_console (v : VTE) (sym : Nat) : VTE :=
  let a := to_rgb v.palette v.cattr
  emit { v with cattr := a } (ScreenOp.write sym a)

/-- Modelled from the spec: `tsm_symbol_make` of tsm-unicode.c; the symbol
identity is not consulted by any claim. -/
def tsm_symbol_make (ucs4 : Nat) : Nat := ucs4

/-- Modelled from the spec: `tsm_ucs4_to_utf8` of tsm-unicode.c — the
standard 1-to-4-byte UTF-8 encoding. -/
def utf8Encode (cp : Nat) : List Nat :=
  if cp < 0x80 then [cp]
  else if cp < 0x800 then [0xc0 + cp / 64, 0x80 + cp % 64]
  else if cp < 0x10000 then
    [0xe0 + cp / 4096, 0x80 + cp / 64 % 64, 0x80 + cp % 64]
  else
    [0xf0 + cp / 262144 % 8, 0x80 + cp / 4096 % 64, 0x80 + cp / 64 % 64,
     0x80 + cp % 64]

/-- `reset_state`: reset the saved DECSC state to its defaults. -/
def reset_state (v : VTE) : VTE :=
  { v with saved_state :=
    { cursor_x := 0
      cursor_y := 0
      origin_mode := false
      wrap_mode := true
      gl := GSlot.g0
      gr := GSlot.g1
      cattr :=
        { copy_bcolor (copy_fcolor v.saved_state.cattr v.def_attr) v.def_attr
          with bold := false, italic := false, underline := false,
               inverse := false, protect := false, blink := false } } }

/-- `save_state` (DECSC): capture cursor, attribute, GL/GR and the
auto-wrap and origin flags. -/
def save_state (v : VTE) : VTE :=
  { v with saved_state :=
    { cursor_x := v.con.cursor_x
      cursor_y := v.con.cursor_y
      cattr := v.cattr
      gl := v.gl
      gr := v.gr
      wrap_mode := v.flags.auto_wrap
      origin_mode := v.flags.origin } }

/-- `restore_state` (DECRC): move the cursor back, reinstate the attribute
(re-resolved against the palette), GL/GR, and push the wrap and origin
flags back to the screen. -/
def restore_state (v : VTE) : VTE :=
  let v := screen_move_to v v.saved_state.cursor_x v.saved_state.cursor_y
  let v := { v with cattr := to_rgb v.palette v.saved_state.cattr }
  let v := if v.flags.bce then emit v (ScreenOp.setDefAttr v.cattr) else v
  let v := { v with gl := v.saved_state.gl, gr := v.saved_state.gr }
  let v :=
    if v.saved_state.wrap_mode then
      emit { v with flags := { v.flags with auto_wrap := true } }
        (ScreenOp.setFlags ScreenFlag.autoWrap)
    else
      emit { v with flags := { v.flags with auto_wrap := false } }
        (ScreenOp.resetFlags ScreenFlag.autoWrap)
  if v.saved_state.origin_mode then
    emit { v with flags := { v.flags with origin := true } }
      (ScreenOp.setFlags ScreenFlag.relOrigin)
  else
    emit { v with flags := { v.flags with origin := false } }
      (ScreenOp.resetFlags ScreenFlag.relOrigin)

/-- `tsm_vte_reset`: the soft reset. -/
def tsm_vte_reset (v : VTE) : VTE :=
  let v := { v with flags :=
    { VteFlags.zero with
        text_cursor := true, auto_repeat := true,
        srm := true, auto_wrap := true, bce := true } }
  let v := emit v ScreenOp.reset
  let v := emit v (ScreenOp.setFlags ScreenFlag.autoWrap)
  let v := { v with mach := ⟨0, 0⟩ }
  let v := { v with state := PState.ground,
                    gl := GSlot.g0, gr := GSlot.g1, glt := none, grt := none,
                    g0 := Charset.unicodeLower, g1 := Charset.unicodeUpper,
                    g2 := Charset.unicodeLower, g3 := Charset.unicodeUpper }
  let v := { v with cattr := to_rgb v.palette v.def_attr }
  let v := emit v (ScreenOp.setDefAttr v.def_attr)
  reset_state v

/-- `tsm_vte_hard_reset`: soft reset plus screen erase, scrollback clear
and cursor home. -/
def tsm_vte_hard_reset (v : VTE) : VTE :=
  let v := tsm_vte_reset v
  let v := emit v (ScreenOp.eraseScreen false)
  let v := emit v ScreenOp.clearScrollback
  screen_move_to v 0 0

/-- `send_primary_da`: the fixed primary device-attributes reply. -/
def send_primary_da (v : VTE) : VTE :=
  vte_write_in_parse v
    [0x1b, 0x5b, 0x3f, 0x36, 0x30, 0x3b, 0x31, 0x3b, 0x36, 0x3b, 0x39,
     0x3b, 0x31, 0x35, 0x63]

/-- Case labels of the `switch (ctrl)` of `do_execute`. -/
inductive ExecTag where
  | nul | enq | bell | bs | ht | lf | cr | so | si | xon | xoff | can
  | sub | esc | del | ind | nel | hts | ri | ss2 | ss3 | decid | st
  | unknown
deriving DecidableEq

/-- The case label selected by a control character in `do_execute`. -/
def execTag (ctrl : Nat) : ExecTag :=
  if ctrl = 0x00 then .nul
  else if ctrl = 0x05 then .enq
  else if ctrl = 0x07 then .bell
  else if ctrl = 0x08 then .bs
  else if ctrl = 0x09 then .ht
  else if ctrl = 0x0a ∨ ctrl = 0x0b ∨ ctrl = 0x0c then .lf
  else if ctrl = 0x0d then .cr
  else if ctrl = 0x0e then .so
  else if ctrl = 0x0f then .si
  else if ctrl = 0x11 then .xon
  else if ctrl = 0x13 then .xoff
  else if ctrl = 0x18 then .can
  else if ctrl = 0x1a then .sub
  else if ctrl = 0x1b then .esc
  else if ctrl = 0x1f then .del
  else if ctrl = 0x84 then .ind
  else if ctrl = 0x85 then .nel
  else if ctrl = 0x88 then .hts
  else if ctrl = 0x8d then .ri
  else if ctrl = 0x8e then .ss2
  else if ctrl = 0x8f then .ss3
  else if ctrl = 0x9a then .decid
  else if ctrl = 0x9c then .st
  else .unknown

/-- `do_execute`: the C0/C1 control-character executor. -/
def do_execute (v : VTE) (ctrl : Nat) : VTE :=
  match execTag ctrl with
  | .nul => v
  | .enq => vte_write_in_parse v [0x06]
  | .bell => v   -- bell callback: external, no VTE state change
  | .bs => emit v (ScreenOp.moveLeft 1)
  | .ht => emit v (ScreenOp.tabRight 1)
  | .lf =>
    if v.flags.lnm then emit v ScreenOp.newline
    else emit v (ScreenOp.moveDown 1 true)
  | .cr => emit v ScreenOp.lineHome
  | .so => { v with gl := GSlot.g1 }
  | .si => { v with gl := GSlot.g0 }
  | .xon => v
  | .xoff => v
  | .can => v
  | .sub => write_console v 0xbf
  | .esc => v
  | .del => v
  | .ind => emit v (ScreenOp.moveDown 1 true)
  | .nel => emit v ScreenOp.newline
  | .hts => emit v ScreenOp.setTabstop
  | .ri => emit v (ScreenOp.moveUp 1 true)
  | .ss2 => { v with glt := some GSlot.g2 }
  | .ss3 => { v with glt := some GSlot.g3 }
  | .decid => send_primary_da v
  | .st => v
  | .unknown => v

/-- `do_clear`: reset the CSI parameter state and the OSC buffer. -/
def do_clear (v : VTE) : VTE :=
  { v with csi_argc := 0, csi_argv := fun _ => -1, csi_flags := 0,
           osc_len := 0, osc_arg := [] }

/-- The intermediate-flag bit recorded by `do_collect` (0 when the byte is
none of the recognised intermediates, matching the empty default case). -/
def collectBit (data : Nat) : Nat :=
  if data = 0x21 then CSI_BANG
  else if data = 0x24 then CSI_CASH
  else if data = 0x3f then CSI_WHAT
  else if data = 0x3e then CSI_GT
  else if data = 0x20 then CSI_SPACE
  else if data = 0x27 then CSI_SQUOTE
  else if data = 0x22 then CSI_DQUOTE
  else if data = 0x2a then CSI_MULT
  else if data = 0x2b then CSI_PLUS
  else if data = 0x28 then CSI_POPEN
  else if data = 0x29 then CSI_PCLOSE
  else 0

/-- `do_collect`: record an intermediate byte in the flag mask. -/
def do_collect (v : VTE) (data : Nat) : VTE :=
  { v with csi_flags := v.csi_flags ||| collectBit data }

/-- The new slot value absorbed by a digit in `do_param`: a non-positive
slot (the −1 sentinel included) restarts at the digit, otherwise the digit
is appended in base 10. -/
def do_param_digit (v : VTE) (data : Nat) : Int :=
  if v.csi_argv v.csi_argc ≤ 0 then (data : Int) - 0x30
  else v.csi_argv v.csi_argc * 10 + ((data : Int) - 0x30)

/-- `do_param`: `;` advances to the next slot (saturating at 16); a digit
extends the current slot unless its value already exceeds 0xffff. -/
def do_param (v : VTE) (data : Nat) : VTE :=
  if data = 0x3b then
    if v.csi_argc < CSI_ARG_MAX then { v with csi_argc := v.csi_argc + 1 }
    else v
  else if CSI_ARG_MAX ≤ v.csi_argc then v
  else if 0xffff < v.csi_argv v.csi_argc then v
  else if 0x30 ≤ data ∧ data ≤ 0x39 then
    setArg v v.csi_argc (do_param_digit v data)
  else v

/-- `set_charset`: route a charset into G0..G3 according to the collected
`( ) * +` intermediate flag; reports whether any of those flags was set. -/
def set_charset (v : VTE) (cs : Charset) : VTE × Bool :=
  if v.csi_flags &&& CSI_POPEN ≠ 0 then ({ v with g0 := cs }, true)
  else if v.csi_flags &&& CSI_PCLOSE ≠ 0 then ({ v with g1 := cs }, true)
  else if v.csi_flags &&& CSI_MULT ≠ 0 then ({ v with g2 := cs }, true)
  else if v.csi_flags &&& CSI_PLUS ≠ 0 then ({ v with g3 := cs }, true)
  else (v, false)

/-- The charset selected by a final byte in the first switch of `do_esc`
(`B`, `<`, `0`, and the national-replacement stubs mapped to
Unicode-upper). -/
def escCharset (data : Nat) : Option Charset :=
  if data = 0x42 then some Charset.unicodeLower
  else if data = 0x3c then some Charset.decSupplementalGraphics
  else if data = 0x30 then some Charset.decSpecialGraphics
  else if data = 0x41 ∨ data = 0x34 ∨ data = 0x43 ∨ data = 0x35 ∨
          data = 0x52 ∨ data = 0x51 ∨ data = 0x4b ∨ data = 0x59 ∨
          data = 0x45 ∨ data = 0x36 ∨ data = 0x5a ∨ data = 0x48 ∨
          data = 0x37 ∨ data = 0x3d then some Charset.unicodeUpper
  else none

/-- Case labels of the flag-free final-byte switch of `do_esc`. -/
inductive EscTag where
  | ind | nel | hts | ri | ss2 | ss3 | decid | st
  | ls1r | ls2 | ls2r | ls3 | ls3r | kpam | kpnm | ris | decsc | decrc
  | unknown
deriving DecidableEq

/-- The case label selected by a final byte in the second switch of
`do_esc`. -/
def escTag (data : Nat) : EscTag :=
  if data = 0x44 then .ind
  else if data = 0x45 then .nel
  else if data = 0x48 then .hts
  else if data = 0x4d then .ri
  else if data = 0x4e then .ss2
  else if data = 0x4f then .ss3
  else if data = 0x5a then .decid
  else if data = 0x5c then .st
  else if data = 0x7e then .ls1r
  else if data = 0x6e then .ls2
  else if data = 0x7d then .ls2r
  else if data = 0x6f then .ls3
  else if data = 0x7c then .ls3r
  else if data = 0x3d then .kpam
  else if data = 0x3e then .kpnm
  else if data = 0x63 then .ris
  else if data = 0x37 then .decsc
  else if data = 0x38 then .decrc
  else .unknown

/-- The second half of `do_esc`: the final-byte dispatch guarded by the
`csi_flags == 0` check of the source. -/
def do_esc_plain (v : VTE) (data : Nat) : VTE :=
  if v.csi_flags ≠ 0 then v
  else
    match escTag data with
    | .ind => emit v (ScreenOp.moveDown 1 true)
    | .nel => emit v ScreenOp.newline
    | .hts => emit v ScreenOp.setTabstop
    | .ri => emit v (ScreenOp.moveUp 1 true)
    | .ss2 => { v with glt := some GSlot.g2 }
    | .ss3 => { v with glt := some GSlot.g3 }
    | .decid => send_primary_da v
    | .st => v
    | .ls1r => { v with gr := GSlot.g1 }
    | .ls2 => { v with gl := GSlot.g2 }
    | .ls2r => { v with gr := GSlot.g2 }
    | .ls3 => { v with gl := GSlot.g3 }
    | .ls3r => { v with gr := GSlot.g3 }
    | .kpam => { v with flags := { v.flags with keypad_application := true } }
    | .kpnm => { v with flags := { v.flags with keypad_application := false } }
    | .ris => tsm_vte_hard_reset v
    | .decsc => save_state v
    | .decrc => restore_state v
    | .unknown => v

/-- `do_esc`: charset-mapping finals first (falling through to the plain
dispatch when no G-slot flag is collected), then the `SP F`/`SP G`
S7C1T/S8C1T cases, then the flag-free finals. -/
def do_esc (v : VTE) (data : Nat) : VTE :=
  match escCharset data with
  | some cs =>
    if (set_charset v cs).2 then (set_charset v cs).1
    else do_esc_plain v data
  | none =>
    if data = 0x46 ∧ v.csi_flags &&& CSI_SPACE ≠ 0 then
      { v with flags := { v.flags with use_c1 := false } }
    else if data = 0x47 ∧ v.csi_flags &&& CSI_SPACE ≠ 0 then
      { v with flags := { v.flags with use_c1 := true } }
    else do_esc_plain v data

/-- The 256-color cube component table `bval` of `csi_attribute`. -/
def bval : Nat → Nat
  | 0 => 0x00
  | 1 => 0x5f
  | 2 => 0x87
  | 3 => 0xaf
  | 4 => 0xd7
  | _ => 0xff

/-- The 256-color arm of the 38/48 SGR form: indices below 16 keep the
color code (with zeroed RGB), 16..231 decode the 6×6×6 cube (the `bval`
entries already fit `uint8_t`), and above 231 the grayscale ramp value is
assigned to the `uint8_t` locals cr/cg/cb, truncating mod 256; the cube
and ramp switch the code to −1 (explicit RGB). -/
def sgr_256color (a : Attr) (p : Int) (codeN : Nat) : Attr :=
  let res : Int × Nat × Nat × Nat :=
    if codeN < 16 then (codeN, 0, 0, 0)
    else if codeN < 232 then
      let c := codeN - 16
      (-1, bval (c / 36 % 6), bval (c / 6 % 6), bval (c % 6))
    else
      let g := ((codeN - 232) * 10 + 8) % 256
      (-1, g, g, g)
  if p = 38 then
    { a with fccode := res.1, fr := res.2.1, fg := res.2.2.1, fb := res.2.2.2 }
  else
    { a with bccode := res.1, br := res.2.1, bg := res.2.2.1, bb := res.2.2.2 }

/-- The true-color arm of the 38/48 SGR form; the color components were
already truncated to `uint8_t` by the caller. -/
def sgr_truecolor (a : Attr) (p : Int) (cr cg cb : Nat) : Attr :=
  if p = 38 then { a with fccode := -1, fr := cr, fg := cg, fb := cb }
  else { a with bccode := -1, br := cr, bg := cg, bb := cb }

/-- Case labels of the `switch (vte->csi_argv[i])` of `csi_attribute`:
the style toggles, the direct color codes (carrying the `TSM_COLOR_*`
value assigned by the case body), the default-color restores, the 38/48
extended form, and the logged default. -/
inductive SgrTag where
  | unset
  | resetAll
  | boldOn | italicOn | underlineOn | blinkOn | inverseOn
  | boldOff | italicOff | underlineOff | blinkOff | inverseOff
  | fcolor (c : Int)
  | fdefault
  | bcolor (c : Int)
  | bdefault
  | extended
  | unknown
deriving DecidableEq

/-- The case label selected by one SGR parameter. -/
def sgrTag (p : Int) : SgrTag :=
  if p = -1 then .unset
  else if p = 0 then .resetAll
  else if p = 1 then .boldOn
  else if p = 3 then .italicOn
  else if p = 4 then .underlineOn
  else if p = 5 then .blinkOn
  else if p = 7 then .inverseOn
  else if p = 22 then .boldOff
  else if p = 23 then .italicOff
  else if p = 24 then .underlineOff
  else if p = 25 then .blinkOff
  else if p = 27 then .inverseOff
  else if p = 30 then .fcolor 0
  else if p = 31 then .fcolor 1
  else if p = 32 then .fcolor 2
  else if p = 33 then .fcolor 3
  else if p = 34 then .fcolor 4
  else if p = 35 then .fcolor 5
  else if p = 36 then .fcolor 6
  else if p = 37 then .fcolor 7
  else if p = 39 then .fdefault
  else if p = 40 then .bcolor 0
  else if p = 41 then .bcolor 1
  else if p = 42 then .bcolor 2
  else if p = 43 then .bcolor 3
  else if p = 44 then .bcolor 4
  else if p = 45 then .bcolor 5
  else if p = 46 then .bcolor 6
  else if p = 47 then .bcolor 7
  else if p = 49 then .bdefault
  else if p = 90 then .fcolor 8
  else if p = 91 then .fcolor 9
  else if p = 92 then .fcolor 10
  else if p = 93 then .fcolor 11
  else if p = 94 then .fcolor 12
  else if p = 95 then .fcolor 13
  else if p = 96 then .fcolor 14
  else if p = 97 then .fcolor 15
  else if p = 100 then .bcolor 8
  else if p = 101 then .bcolor 9
  else if p = 102 then .bcolor 10
  else if p = 103 then .bcolor 11
  else if p = 104 then .bcolor 12
  else if p = 105 then .bcolor 13
  else if p = 106 then .bcolor 14
  else if p = 107 then .bcolor 15
  else if p = 38 ∨ p = 48 then .extended
  else .unknown

/-- One iteration of the SGR loop of `csi_attribute`: consumes the
parameter at index `i` (plus the extra parameters of the 38/48 forms) and
returns the updated attribute together with the index the loop continues
from (the `++i` of the `for` included). -/
def sgr_step (defAttr : Attr) (argv : Nat → Int) (argc : Nat) (a : Attr)
    (i : Nat) : Attr × Nat :=
  match sgrTag (argv i) with
  | .unset => (a, i + 1)
  | .resetAll =>
    ({ copy_bcolor (copy_fcolor a defAttr) defAttr with
         bold := false, italic := false, underline := false,
         inverse := false, blink := false }, i + 1)
  | .boldOn => ({ a with bold := true }, i + 1)
  | .italicOn => ({ a with italic := true }, i + 1)
  | .underlineOn => ({ a with underline := true }, i + 1)
  | .blinkOn => ({ a with blink := true }, i + 1)
  | .inverseOn => ({ a with inverse := true }, i + 1)
  | .boldOff => ({ a with bold := false }, i + 1)
  | .italicOff => ({ a with italic := false }, i + 1)
  | .underlineOff => ({ a with underline := false }, i + 1)
  | .blinkOff => ({ a with blink := false }, i + 1)
  | .inverseOff => ({ a with inverse := false }, i + 1)
  | .fcolor c => ({ a with fccode := c }, i + 1)
  | .fdefault => (copy_fcolor a defAttr, i + 1)
  | .bcolor c => ({ a with bccode := c }, i + 1)
  | .bdefault => (copy_bcolor a defAttr, i + 1)
  | .extended =>
    if argv (i + 1) = 5 then      -- 256-color mode
      if argc ≤ i + 2 ∨ argv (i + 2) < 0 then (a, i + 1)
      else (sgr_256color a (argv i) (argv (i + 2)).toNat, i + 3)
    else if argv (i + 1) = 2 then  -- true-color mode
      if argc ≤ i + 4 ∨ argv (i + 2) < 0 ∨ argv (i + 3) < 0 ∨
          argv (i + 4) < 0 then (a, i + 1)
      else
        -- cr/cg/cb are uint8_t locals: assignment truncates mod 256
        (sgr_truecolor a (argv i) ((argv (i + 2)).toNat % 256)
          ((argv (i + 3)).toNat % 256) ((argv (i + 4)).toNat % 256), i + 5)
    else (a, i + 1)
  | .unknown => (a, i + 1)

/-- The SGR `for` loop of `csi_attribute`, folded over the attribute;
the loop index returned by `sgr_step` strictly increases, which bounds
the recursion by `argc - i`. -/
def sgr_apply (defAttr : Attr) (argv : Nat → Int) (argc : Nat) (a : Attr)
    (i : Nat) : Attr :=
  if _h : i < argc then
    let r := sgr_step defAttr argv argc a i
    sgr_apply defAttr argv argc r.1 r.2
  else a
termination_by argc - i
decreasing_by
  have hlt : i < (sgr_step defAttr argv argc a i).2 := by
    unfold sgr_step
    cases sgrTag (argv i) <;> (repeat' split) <;> simp
  omega

/-- The head normalisation of `csi_attribute`: an absent single parameter
(SGR with no arguments) counts as one parameter with value 0. -/
def csi_attribute_norm (v : VTE) : VTE :=
  if v.csi_argc ≤ 1 ∧ v.csi_argv 0 = -1 then
    setArg { v with csi_argc := 1 } 0 0
  else v

/-- The attribute produced by the SGR loop of `csi_attribute`, re-resolved
against the palette. -/
def csi_attribute_attr (v : VTE) : Attr :=
  to_rgb v.palette (sgr_apply v.def_attr v.csi_argv v.csi_argc v.cattr 0)

/-- The tail of `csi_attribute`: install the computed attribute and publish
it as the erase attribute when background-color-erase is on. -/
def csi_attribute_apply (v : VTE) : VTE :=
  if v.flags.bce then
    emit { v with cattr := csi_attribute_attr v }
      (ScreenOp.setDefAttr (csi_attribute_attr v))
  else { v with cattr := csi_attribute_attr v }

/-- `csi_attribute` (SGR): normalise an absent single parameter to 0, run
the SGR loop, re-resolve the palette, and publish the erase attribute when
background-color-erase is on. -/
def csi_attribute (v : VTE) : VTE :=
  csi_attribute_apply (csi_attribute_norm v)

/-- `csi_soft_reset`. -/
def csi_soft_reset (v : VTE) : VTE := tsm_vte_reset v

/-- `csi_compat_mode` (DECSCL): always soft-reset, then apply the
compatibility-level specific flag and G-set changes for 61 and 62/63/64. -/
def csi_compat_mode (v : VTE) : VTE :=
  let v := csi_soft_reset v
  if v.csi_argv 0 = 61 then
    { v with flags := { v.flags with mode7bit := true },
             g0 := Charset.unicodeLower,
             g1 := Charset.decSupplementalGraphics }
  else if v.csi_argv 0 = 62 ∨ v.csi_argv 0 = 63 ∨ v.csi_argv 0 = 64 then
    let v :=
      if v.csi_argv 1 = 1 ∨ v.csi_argv 1 = 2 then
        { v with flags := { v.flags with use_c1 := true } }
      else v
    { v with flags := { v.flags with mode8bit := true },
             g0 := Charset.unicodeLower,
             g1 := Charset.decSupplementalGraphics }
  else v

/-- Case labels of the ANSI (no `?` flag) switch of `csi_mode`. -/
inductive AnsiModeTag where
  | unset | kam | irm | srm | lnm | unknown
deriving DecidableEq

/-- The ANSI-mode case label selected by one SM/RM parameter. -/
def ansiModeTag (p : Int) : AnsiModeTag :=
  if p = -1 then .unset
  else if p = 2 then .kam
  else if p = 4 then .irm
  else if p = 12 then .srm
  else if p = 20 then .lnm
  else .unknown

/-- Case labels of the DEC-private (`?` flag) switch of `csi_mode`. -/
inductive DecModeTag where
  | unset | decckm | ignored | decscnm | decom | decawm | decarm
  | dectcem | decnrcm | alt47 | alt1047 | alt1048 | alt1049 | unknown
deriving DecidableEq

/-- The DEC-private case label selected by one DECSET/DECRST parameter
(2, 3, 4, 12, 18, 19 are documented as accepted-and-ignored). -/
def decModeTag (p : Int) : DecModeTag :=
  if p = -1 then .unset
  else if p = 1 then .decckm
  else if p = 2 ∨ p = 3 ∨ p = 4 ∨ p = 12 ∨ p = 18 ∨ p = 19 then .ignored
  else if p = 5 then .decscnm
  else if p = 6 then .decom
  else if p = 7 then .decawm
  else if p = 8 then .decarm
  else if p = 25 then .dectcem
  else if p = 42 then .decnrcm
  else if p = 47 then .alt47
  else if p = 1047 then .alt1047
  else if p = 1048 then .alt1048
  else if p = 1049 then .alt1049
  else .unknown

/-- One parameter of the SM/RM loop of `csi_mode`. -/
def csi_mode_one (v : VTE) (set : Bool) (p : Int) : VTE :=
  if v.csi_flags &&& CSI_WHAT = 0 then
    match ansiModeTag p with
    | .unset => v
    | .kam => { v with flags := { v.flags with kam := set } }
    | .irm =>
      if set then
        emit { v with flags := { v.flags with irm := set } }
          (ScreenOp.setFlags ScreenFlag.insertMode)
      else
        emit { v with flags := { v.flags with irm := set } }
          (ScreenOp.resetFlags ScreenFlag.insertMode)
    | .srm => { v with flags := { v.flags with srm := set } }
    | .lnm => { v with flags := { v.flags with lnm := set } }
    | .unknown => v
  else
    match decModeTag p with
    | .unset => v
    | .decckm => { v with flags := { v.flags with cursor_key := set } }
    | .ignored => v
    | .decscnm =>
      if set then
        emit { v with flags := { v.flags with inverse_screen := set } }
          (ScreenOp.setFlags ScreenFlag.inverse)
      else
        emit { v with flags := { v.flags with inverse_screen := set } }
          (ScreenOp.resetFlags ScreenFlag.inverse)
    | .decom =>
      if set then
        emit { v with flags := { v.flags with origin := set } }
          (ScreenOp.setFlags ScreenFlag.relOrigin)
      else
        emit { v with flags := { v.flags with origin := set } }
          (ScreenOp.resetFlags ScreenFlag.relOrigin)
    | .decawm =>
      if set then
        emit { v with flags := { v.flags with auto_wrap := set } }
          (ScreenOp.setFlags ScreenFlag.autoWrap)
      else
        emit { v with flags := { v.flags with auto_wrap := set } }
          (ScreenOp.resetFlags ScreenFlag.autoWrap)
    | .decarm => { v with flags := { v.flags with auto_repeat := set } }
    | .dectcem =>
      if set then
        emit { v with flags := { v.flags with text_cursor := set } }
          (ScreenOp.resetFlags ScreenFlag.hideCursor)
      else
        emit { v with flags := { v.flags with text_cursor := set } }
          (ScreenOp.setFlags ScreenFlag.hideCursor)
    | .decnrcm => { v with flags := { v.flags with ncm := set } }
    | .alt47 =>
      if v.flags.tite_inhibit then v
      else if set then emit v (ScreenOp.setFlags ScreenFlag.alternate)
      else emit v (ScreenOp.resetFlags ScreenFlag.alternate)
    | .alt1047 =>
      if v.flags.tite_inhibit then v
      else if set then emit v (ScreenOp.setFlags ScreenFlag.alternate)
      else
        emit (emit v (ScreenOp.eraseScreen false))
          (ScreenOp.resetFlags ScreenFlag.alternate)
    | .alt1048 =>
      if v.flags.tite_inhibit then v
      else if set then
        { v with alt_cursor_x := v.con.cursor_x,
                 alt_cursor_y := v.con.cursor_y }
      else screen_move_to v v.alt_cursor_x v.alt_cursor_y
    | .alt1049 =>
      if v.flags.tite_inhibit then v
      else if set then
        emit
          (emit { v with alt_cursor_x := v.con.cursor_x,
                         alt_cursor_y := v.con.cursor_y }
            (ScreenOp.setFlags ScreenFlag.alternate))
          (ScreenOp.eraseScreen false)
      else
        screen_move_to (emit v (ScreenOp.resetFlags ScreenFlag.alternate))
          v.alt_cursor_x v.alt_cursor_y
    | .unknown => v

/-- `csi_mode` (SM/RM, DECSET/DECRST): iterate over the collected
parameters. -/
def csi_mode (v : VTE) (set : Bool) : VTE :=
  (List.range v.csi_argc).foldl (fun w i => csi_mode_one w set (w.csi_argv i)) v

/-- `csi_dev_attr` (DA): the primary and secondary device-attribute
replies. -/
def csi_dev_attr (v : VTE) : VTE :=
  if v.csi_argc ≤ 1 ∧ v.csi_argv 0 ≤ 0 then
    if v.csi_flags = 0 then send_primary_da v
    else if v.csi_flags &&& CSI_GT ≠ 0 then
      vte_write_in_parse v [0x1b, 0x5b, 0x3e, 0x31, 0x3b, 0x31, 0x3b, 0x30, 0x63]
    else v
  else v

/-- Decimal ASCII digits of a natural number, most significant first (the
`%u` conversion of `snprintf`). -/
def decDigits (n : Nat) : List Nat :=
  if n < 10 then [0x30 + n] else decDigits (n / 10) ++ [0x30 + n % 10]
termination_by n
decreasing_by
  exact Nat.div_lt_self (by omega) (by omega)

/-- The bytes `snprintf` formats for the DSR-6 cursor-position report:
`ESC [<y+1>;<x+1>R` with the cursor read back from the screen. -/
def dsr6_buf (v : VTE) : List Nat :=
  [0x1b, 0x5b] ++ decDigits (v.con.cursor_y + 1) ++ [0x3b] ++
    decDigits (v.con.cursor_x + 1) ++ [0x52]

/-- `csi_dsr` (DSR): parameter 5 answers `ESC [0n`; parameter 6 formats
`ESC [<y+1>;<x+1>R` into a 64-byte buffer, falling back to `ESC [0;0R`
when the formatted length does not fit. -/
def csi_dsr (v : VTE) : VTE :=
  if v.csi_argv 0 = 5 then vte_write_in_parse v [0x1b, 0x5b, 0x30, 0x6e]
  else if v.csi_argv 0 = 6 then
    if 64 ≤ (dsr6_buf v).length then
      vte_write_in_parse v [0x1b, 0x5b, 0x30, 0x3b, 0x30, 0x52]
    else vte_write_in_parse v (dsr6_buf v)
  else v

/-- Case labels of the final-byte switch of `do_csi`. -/
inductive CsiTag where
  | cuu | cud | cuf | cub | vpa | vpr | cup | cha | ed | el | ech
  | sgrOrModkeys | presetOrCompat | sm | rm | stbm | da | il | dl | tbc
  | ich | dch | cbt | cht | dsr | su | sd
  | unknown
deriving DecidableEq

/-- The case label selected by a CSI final byte. -/
def csiTag (data : Nat) : CsiTag :=
  if data = 0x41 then .cuu
  else if data = 0x42 then .cud
  else if data = 0x43 then .cuf
  else if data = 0x44 then .cub
  else if data = 0x64 then .vpa
  else if data = 0x65 then .vpr
  else if data = 0x48 ∨ data = 0x66 then .cup
  else if data = 0x47 then .cha
  else if data = 0x4a then .ed
  else if data = 0x4b then .el
  else if data = 0x58 then .ech
  else if data = 0x6d then .sgrOrModkeys
  else if data = 0x70 then .presetOrCompat
  else if data = 0x68 then .sm
  else if data = 0x6c then .rm
  else if data = 0x72 then .stbm
  else if data = 0x63 then .da
  else if data = 0x4c then .il
  else if data = 0x4d then .dl
  else if data = 0x67 then .tbc
  else if data = 0x40 then .ich
  else if data = 0x50 then .dch
  else if data = 0x5a then .cbt
  else if data = 0x49 then .cht
  else if data = 0x6e then .dsr
  else if data = 0x53 then .su
  else if data = 0x54 then .sd
  else .unknown

/-- The `csi_argc` increment at the top of `do_csi` (the final slot is
considered populated). -/
def csi_bump (v : VTE) : VTE :=
  if v.csi_argc < CSI_ARG_MAX then { v with csi_argc := v.csi_argc + 1 }
  else v

/-- The final-byte dispatch of `do_csi`, after the argument-count bump. -/
def do_csi_post (v : VTE) (data : Nat) : VTE :=
  match csiTag data with
  | .cuu =>
    let num : Int := if v.csi_argv 0 ≤ 0 then 1 else v.csi_argv 0
    emit v (ScreenOp.moveUp num.toNat false)
  | .cud =>
    let num : Int := if v.csi_argv 0 ≤ 0 then 1 else v.csi_argv 0
    emit v (ScreenOp.moveDown num.toNat false)
  | .cuf =>
    let num : Int := if v.csi_argv 0 ≤ 0 then 1 else v.csi_argv 0
    emit v (ScreenOp.moveRight num.toNat)
  | .cub =>
    let num : Int := if v.csi_argv 0 ≤ 0 then 1 else v.csi_argv 0
    emit v (ScreenOp.moveLeft num.toNat)
  | .vpa =>
    let num : Int := if v.csi_argv 0 ≤ 0 then 1 else v.csi_argv 0
    screen_move_to v v.con.cursor_x (num - 1).toNat
  | .vpr =>
    let num : Int := if v.csi_argv 0 ≤ 0 then 1 else v.csi_argv 0
    screen_move_to v v.con.cursor_x (v.con.cursor_y + num.toNat)
  | .cup =>
    let x : Int := if v.csi_argv 0 ≤ 0 then 1 else v.csi_argv 0
    let y : Int := if v.csi_argv 1 ≤ 0 then 1 else v.csi_argv 1
    screen_move_to v (y - 1).toNat (x - 1).toNat
  | .cha =>
    let num : Int := if v.csi_argv 0 ≤ 0 then 1 else v.csi_argv 0
    screen_move_to v (num - 1).toNat v.con.cursor_y
  | .ed =>
    if v.csi_argv 0 ≤ 0 then
      emit v (ScreenOp.eraseCursorToScreen (v.csi_flags &&& CSI_WHAT != 0))
    else if v.csi_argv 0 = 1 then
      emit v (ScreenOp.eraseScreenToCursor (v.csi_flags &&& CSI_WHAT != 0))
    else if v.csi_argv 0 = 2 then
      emit v (ScreenOp.eraseScreen (v.csi_flags &&& CSI_WHAT != 0))
    else v
  | .el =>
    if v.csi_argv 0 ≤ 0 then
      emit v (ScreenOp.eraseCursorToEnd (v.csi_flags &&& CSI_WHAT != 0))
    else if v.csi_argv 0 = 1 then
      emit v (ScreenOp.eraseHomeToCursor (v.csi_flags &&& CSI_WHAT != 0))
    else if v.csi_argv 0 = 2 then
      emit v (ScreenOp.eraseCurrentLine (v.csi_flags &&& CSI_WHAT != 0))
    else v
  | .ech =>
    let num : Int := if v.csi_argv 0 ≤ 0 then 1 else v.csi_argv 0
    emit v (ScreenOp.eraseChars num.toNat)
  | .sgrOrModkeys =>
    if v.csi_flags &&& CSI_GT ≠ 0 then v else csi_attribute v
  | .presetOrCompat =>
    if v.csi_flags &&& CSI_GT ≠ 0 then csi_soft_reset v
    else if v.csi_flags &&& CSI_BANG ≠ 0 then csi_soft_reset v
    else if v.csi_flags &&& CSI_CASH ≠ 0 then
      if v.csi_flags &&& CSI_WHAT ≠ 0 then v else csi_soft_reset v
    else csi_compat_mode v
  | .sm => csi_mode v true
  | .rm => csi_mode v false
  | .stbm =>
    let upper : Int := if v.csi_argv 0 < 0 then 0 else v.csi_argv 0
    let lower : Int := if v.csi_argv 1 < 0 then 0 else v.csi_argv 1
    emit v (ScreenOp.setMargins upper.toNat lower.toNat)
  | .da => csi_dev_attr v
  | .il =>
    let num : Int := if v.csi_argv 0 ≤ 0 then 1 else v.csi_argv 0
    emit v (ScreenOp.insertLines num.toNat)
  | .dl =>
    let num : Int := if v.csi_argv 0 ≤ 0 then 1 else v.csi_argv 0
    emit v (ScreenOp.deleteLines num.toNat)
  | .tbc =>
    if v.csi_argv 0 ≤ 0 then emit v ScreenOp.resetTabstop
    else if v.csi_argv 0 = 3 then emit v ScreenOp.resetAllTabstops
    else v
  | .ich =>
    let num : Int := if v.csi_argv 0 ≤ 0 then 1 else v.csi_argv 0
    emit v (ScreenOp.insertChars num.toNat)
  | .dch =>
    let num : Int := if v.csi_argv 0 ≤ 0 then 1 else v.csi_argv 0
    emit v (ScreenOp.deleteChars num.toNat)
  | .cbt =>
    let num : Int := if v.csi_argv 0 ≤ 0 then 1 else v.csi_argv 0
    emit v (ScreenOp.tabLeft num.toNat)
  | .cht =>
    let num : Int := if v.csi_argv 0 ≤ 0 then 1 else v.csi_argv 0
    emit v (ScreenOp.tabRight num.toNat)
  | .dsr => csi_dsr v
  | .su =>
    let num : Int := if v.csi_argv 0 ≤ 0 then 1 else v.csi_argv 0
    emit v (ScreenOp.scrollUp num.toNat)
  | .sd =>
    let num : Int := if v.csi_argv 0 ≤ 0 then 1 else v.csi_argv 0
    emit v (ScreenOp.scrollDown num.toNat)
  | .unknown => v

/-- `do_csi`: count the final slot as populated, then dispatch on the final
byte. -/
def do_csi (v : VTE) (data : Nat) : VTE := do_csi_post (csi_bump v) data

/-- The charset table currently held in a G-set slot. -/
def gsetOf (v : VTE) : GSlot → Charset
  | .g0 => v.g0
  | .g1 => v.g1
  | .g2 => v.g2
  | .g3 => v.g3

/-- `vte_map`: translate a printable codepoint through the active GL/GR
table.  33..126 go through GL (or the GL single-shift, consuming it),
161..254 through GR (or the GR single-shift, consuming it); 32, 127, 160,
255 and everything above 255 map to identity. -/
def vte_map (v : VTE) (val : Nat) : VTE × Nat :=
  if 33 ≤ val ∧ val ≤ 126 then
    match v.glt with
    | some t => ({ v with glt := none }, charsetAt (gsetOf v t) (val - 32))
    | none => (v, charsetAt (gsetOf v v.gl) (val - 32))
  else if 161 ≤ val ∧ val ≤ 254 then
    match v.grt with
    | some t => ({ v with grt := none }, charsetAt (gsetOf v t) (val - 160))
    | none => (v, charsetAt (gsetOf v v.gr) (val - 160))
  else (v, val)

/-- `do_osc_collect`: append the UTF-8 encoding of the codepoint to the
OSC buffer, dropping it if the buffer would exceed 127 bytes. -/
def do_osc_collect (v : VTE) (val : Nat) : VTE :=
  if OSC_MAX_LEN - 1 < v.osc_len + (utf8Encode val).length then v
  else { v with osc_arg := v.osc_arg ++ utf8Encode val,
                osc_len := v.osc_len + (utf8Encode val).length }

/-- `do_osc_end`: NUL-terminate the buffer and invoke the registered OSC
callback.  The callback is external and the terminator lies beyond
`osc_len`, so the VTE state is unchanged. -/
def do_osc_end (v : VTE) : VTE := v

/-- `do_action`: dispatch one parser action. -/
def do_action (v : VTE) (data : Nat) (action : PAction) : VTE :=
  match action with
  | .none => v
  | .ignore => v
  | .print =>
    write_console (vte_map v data).1 (tsm_symbol_make (vte_map v data).2)
  | .execute => do_execute v data
  | .clear => do_clear v
  | .collect => do_collect v data
  | .param => do_param v data
  | .escDispatch => do_esc v data
  | .csiDispatch => do_csi v data
  | .dcsStart => v
  | .dcsCollect => v
  | .dcsEnd => v
  | .oscStart => do_clear v
  | .oscCollect => do_osc_collect v data
  | .oscEnd => do_osc_end v

/-- `entry_action`: action performed when entering a state. -/
def entry_action : PState → PAction
  | .csiEntry => .clear
  | .dcsEntry => .clear
  | .dcsPass => .dcsStart
  | .esc => .clear
  | .oscString => .oscStart
  | _ => .none

/-- `exit_action`: action performed when leaving a state. -/
def exit_action : PState → PAction
  | .dcsPass => .dcsEnd
  | .oscString => .oscEnd
  | _ => .none

/-- `do_trans`: perform exit action, transition action and entry action
when a state change is requested; just the action otherwise. -/
def do_trans (v : VTE) (data : Nat) (st : PState) (act : PAction) : VTE :=
  if st ≠ PState.none then
    let v1 := do_action v data (exit_action v.state)
    let v2 := do_action v1 data act
    let v3 := do_action v2 data (entry_action st)
    { v3 with state := st }
  else do_action v data act

/-- The Williams state table of `parse_data`: the transitions preempted in
any state first, then the per-state dispatch; returns the requested target
state (`PState.none` for "stay") and the transition action. -/
def parse_table (st : PState) (raw : Nat) : PState × PAction :=
  -- events that may occur in any state
  if raw = 0x18 ∨ raw = 0x1a ∨ (0x80 ≤ raw ∧ raw ≤ 0x8f) ∨
      (0x91 ≤ raw ∧ raw ≤ 0x97) ∨ raw = 0x99 ∨ raw = 0x9a ∨ raw = 0x9c then
    (.ground, .execute)
  else if raw = 0x1b then (.esc, .none)
  else if raw = 0x98 ∨ raw = 0x9e ∨ raw = 0x9f then (.stIgnore, .none)
  else if raw = 0x90 then (.dcsEntry, .none)
  else if raw = 0x9d then (.oscString, .none)
  else if raw = 0x9b then (.csiEntry, .none)
  else
    -- events that depend on the current state
    match st with
    | .ground =>
      if raw ≤ 0x17 ∨ raw = 0x19 ∨ (0x1c ≤ raw ∧ raw ≤ 0x1f) ∨
          (0x80 ≤ raw ∧ raw ≤ 0x9a) ∨ raw = 0x9c then (.none, .execute)
      else (.none, .print)
    | .esc =>
      if raw ≤ 0x17 ∨ raw = 0x19 ∨ (0x1c ≤ raw ∧ raw ≤ 0x1f) then
        (.none, .execute)
      else if raw = 0x7f then (.none, .ignore)
      else if 0x20 ≤ raw ∧ raw ≤ 0x2f then (.escInt, .collect)
      else if raw = 0x5b then (.csiEntry, .none)
      else if raw = 0x5d then (.oscString, .none)
      else if raw = 0x50 then (.dcsEntry, .none)
      else if raw = 0x58 ∨ raw = 0x5e ∨ raw = 0x5f then (.stIgnore, .none)
      else if (0x30 ≤ raw ∧ raw ≤ 0x4f) ∨ (0x51 ≤ raw ∧ raw ≤ 0x57) ∨
          raw = 0x59 ∨ raw = 0x5a ∨ raw = 0x5c ∨
          (0x60 ≤ raw ∧ raw ≤ 0x7e) then (.ground, .escDispatch)
      else (.escInt, .collect)
    | .escInt =>
      if raw ≤ 0x17 ∨ raw = 0x19 ∨ (0x1c ≤ raw ∧ raw ≤ 0x1f) then
        (.none, .execute)
      else if 0x20 ≤ raw ∧ raw ≤ 0x2f then (.none, .collect)
      else if raw = 0x7f then (.none, .ignore)
      else if 0x30 ≤ raw ∧ raw ≤ 0x7e then (.ground, .escDispatch)
      else (.none, .collect)
    | .csiEntry =>
      if raw ≤ 0x17 ∨ raw = 0x19 ∨ (0x1c ≤ raw ∧ raw ≤ 0x1f) then
        (.none, .execute)
      else if raw = 0x7f then (.none, .ignore)
      else if 0x20 ≤ raw ∧ raw ≤ 0x2f then (.csiInt, .collect)
      else if raw = 0x3a then (.csiIgnore, .none)
      else if (0x30 ≤ raw ∧ raw ≤ 0x39) ∨ raw = 0x3b then (.csiParam, .param)
      else if 0x3c ≤ raw ∧ raw ≤ 0x3f then (.csiParam, .collect)
      else if 0x40 ≤ raw ∧ raw ≤ 0x7e then (.ground, .csiDispatch)
      else (.csiIgnore, .none)
    | .csiParam =>
      if raw ≤ 0x17 ∨ raw = 0x19 ∨ (0x1c ≤ raw ∧ raw ≤ 0x1f) then
        (.none, .execute)
      else if (0x30 ≤ raw ∧ raw ≤ 0x39) ∨ raw = 0x3b then (.none, .param)
      else if raw = 0x7f then (.none, .ignore)
      else if raw = 0x3a ∨ (0x3c ≤ raw ∧ raw ≤ 0x3f) then (.csiIgnore, .none)
      else if 0x20 ≤ raw ∧ raw ≤ 0x2f then (.csiInt, .collect)
      else if 0x40 ≤ raw ∧ raw ≤ 0x7e then (.ground, .csiDispatch)
      else (.csiIgnore, .none)
    | .csiInt =>
      if raw ≤ 0x17 ∨ raw = 0x19 ∨ (0x1c ≤ raw ∧ raw ≤ 0x1f) then
        (.none, .execute)
      else if 0x20 ≤ raw ∧ raw ≤ 0x2f then (.none, .collect)
      else if raw = 0x7f then (.none, .ignore)
      else if 0x30 ≤ raw ∧ raw ≤ 0x3f then (.csiIgnore, .none)
      else if 0x40 ≤ raw ∧ raw ≤ 0x7e then (.ground, .csiDispatch)
      else (.csiIgnore, .none)
    | .csiIgnore =>
      if raw ≤ 0x17 ∨ raw = 0x19 ∨ (0x1c ≤ raw ∧ raw ≤ 0x1f) then
        (.none, .execute)
      else if (0x20 ≤ raw ∧ raw ≤ 0x3f) ∨ raw = 0x7f then (.none, .ignore)
      else if 0x40 ≤ raw ∧ raw ≤ 0x7e then (.ground, .none)
      else (.none, .ignore)
    | .dcsEntry =>
      if raw ≤ 0x17 ∨ raw = 0x19 ∨ (0x1c ≤ raw ∧ raw ≤ 0x1f) ∨
          raw = 0x7f then (.none, .ignore)
      else if raw = 0x3a then (.dcsIgnore, .none)
      else if 0x20 ≤ raw ∧ raw ≤ 0x2f then (.dcsInt, .collect)
      else if (0x30 ≤ raw ∧ raw ≤ 0x39) ∨ raw = 0x3b then (.dcsParam, .param)
      else if 0x3c ≤ raw ∧ raw ≤ 0x3f then (.dcsParam, .collect)
      else if 0x40 ≤ raw ∧ raw ≤ 0x7e then (.dcsPass, .none)
      else (.dcsPass, .none)
    | .dcsParam =>
      if raw ≤ 0x17 ∨ raw = 0x19 ∨ (0x1c ≤ raw ∧ raw ≤ 0x1f) ∨
          raw = 0x7f then (.none, .ignore)
      else if (0x30 ≤ raw ∧ raw ≤ 0x39) ∨ raw = 0x3b then (.none, .param)
      else if raw = 0x3a ∨ (0x3c ≤ raw ∧ raw ≤ 0x3f) then (.dcsIgnore, .none)
      else if 0x20 ≤ raw ∧ raw ≤ 0x2f then (.dcsInt, .collect)
      else if 0x40 ≤ raw ∧ raw ≤ 0x7e then (.dcsPass, .none)
      else (.dcsPass, .none)
    | .dcsInt =>
      if raw ≤ 0x17 ∨ raw = 0x19 ∨ (0x1c ≤ raw ∧ raw ≤ 0x1f) ∨
          raw = 0x7f then (.none, .ignore)
      else if 0x20 ≤ raw ∧ raw ≤ 0x2f then (.none, .collect)
      else if 0x30 ≤ raw ∧ raw ≤ 0x3f then (.dcsIgnore, .none)
      else if 0x40 ≤ raw ∧ raw ≤ 0x7e then (.dcsPass, .none)
      else (.dcsPass, .none)
    | .dcsPass =>
      if raw ≤ 0x17 ∨ raw = 0x19 ∨ (0x1c ≤ raw ∧ raw ≤ 0x7e) then
        (.none, .dcsCollect)
      else if raw = 0x7f then (.none, .ignore)
      else if raw = 0x9c then (.ground, .none)
      else (.none, .dcsCollect)
    | .dcsIgnore =>
      if raw ≤ 0x17 ∨ raw = 0x19 ∨ (0x1c ≤ raw ∧ raw ≤ 0x7f) then
        (.none, .ignore)
      else if raw = 0x9c then (.ground, .none)
      else (.none, .ignore)
    | .oscString =>
      if raw ≤ 0x06 ∨ (0x08 ≤ raw ∧ raw ≤ 0x17) ∨ raw = 0x19 ∨
          (0x1c ≤ raw ∧ raw ≤ 0x1f) then (.none, .ignore)
      else if 0x20 ≤ raw ∧ raw ≤ 0x7f then (.none, .oscCollect)
      else if raw = 0x07 ∨ raw = 0x9c then (.ground, .none)
      else (.none, .oscCollect)
    | .stIgnore =>
      if raw ≤ 0x17 ∨ raw = 0x19 ∨ (0x1c ≤ raw ∧ raw ≤ 0x7f) then
        (.none, .ignore)
      else if raw = 0x9c then (.ground, .none)
      else (.none, .ignore)
    | .none => (.none, .none)  -- unreachable state: the C code only logs

/-- `parse_data`: look up the transition for the current state and perform
it. -/
def parse_data (v : VTE) (raw : Nat) : VTE :=
  let t := parse_table v.state raw
  do_trans v raw t.1 t.2

/-- One byte of the `tsm_vte_input` loop: mask to 7 bits in 7-bit mode,
pass through in 8-bit mode, otherwise run the UTF-8 machine and parse the
codepoint on ACCEPT or REJECT. -/
def tsm_vte_input_byte (v : VTE) (b : Nat) : VTE :=
  if v.flags.mode7bit then parse_data v (b % 0x80)
  else if v.flags.mode8bit then parse_data v b
  else
    match utf8_feed v.mach b with
    | (m, some cp) => parse_data { v with mach := m } cp
    | (m, none) => { v with mach := m }

/-- `tsm_vte_input`: bump the re-entry counter, feed every byte, drop the
counter again. -/
def tsm_vte_input (v : VTE) (bytes : List Nat) : VTE :=
  let v := { v with parse_cnt := v.parse_cnt + 1 }
  let v := bytes.foldl tsm_vte_input_byte v
  { v with parse_cnt := v.parse_cnt - 1 }

/-- `vte_write_debug` in full: when the re-entry counter is zero and
SEND_RECEIVE_MODE is off (local echo), first feed an ESC (if the
prepend-escape flag is set) and the payload back through the input
pipeline, then perform the plain write; otherwise just the plain write. -/
def vte_write (v : VTE) (payload : List Nat) : VTE :=
  if v.parse_cnt = 0 ∧ v.flags.srm = false then
    let v1 := if v.flags.prepend_escape then tsm_vte_input v [0x1b] else v
    let v2 := tsm_vte_input v1 payload
    vte_write_in_parse v2 payload
  else vte_write_in_parse v payload

/-- An empty screen for concrete runs. -/
def screen0 : Screen := ⟨0, 0, []⟩

/-- The all-zero attribute produced by the `memset` of `tsm_vte_new`. -/
def attr0 : Attr :=
  ⟨0, 0, 0, 0, 0, 0, 0, 0, false, false, false, false, false, false⟩

/-- `tsm_vte_new`: zero the instance, select the default palette, resolve
the default attribute, soft-reset, and erase the screen. -/
def tsm_vte_new (con : Screen) : VTE :=
  let def0 := to_rgb color_palette { attr0 with fccode := 16, bccode := 17 }
  let v : VTE :=
    { state := PState.none
      csi_argc := 0
      csi_argv := fun _ => 0
      csi_flags := 0
      osc_len := 0
      osc_arg := []
      flags := VteFlags.zero
      mach := ⟨0, 0⟩
      parse_cnt := 0
      palette := color_palette
      def_attr := def0
      cattr := attr0
      gl := GSlot.g0
      gr := GSlot.g1
      glt := none
      grt := none
      g0 := Charset.unicodeLower
      g1 := Charset.unicodeUpper
      g2 := Charset.unicodeLower
      g3 := Charset.unicodeUpper
      saved_state :=
        ⟨0, 0, attr0, GSlot.g0, GSlot.g1, false, false⟩
      alt_cursor_x := 0
      alt_cursor_y := 0
      con := con
      out := [] }
  emit (tsm_vte_reset v) (ScreenOp.eraseScreen false)

/-- A freshly created VTE on an empty screen. -/
def freshVTE : VTE := tsm_vte_new screen0

/-- Modelled from the spec: the keyboard modifier bitmask, reduced to the
three modifiers the handler consults. -/
structure Mods where
  shift : Bool
  ctrl : Bool
  alt : Bool
deriving DecidableEq

/-- The payload sent for a Ctrl-modified keysym (the first switch of
`tsm_vte_handle_keyboard`); `none` when the switch falls through.
Keysym values are the xkbcommon codes named in the source. -/
def ctrl_payload (sym : Nat) : Option (List Nat) :=
  if sym = 0x32 ∨ sym = 0x20 then some [0x00]
  else if sym = 0x61 ∨ sym = 0x41 then some [0x01]
  else if sym = 0x62 ∨ sym = 0x42 then some [0x02]
  else if sym = 0x63 ∨ sym = 0x43 then some [0x03]
  else if sym = 0x64 ∨ sym = 0x44 then some [0x04]
  else if sym = 0x65 ∨ sym = 0x45 then some [0x05]
  else if sym = 0x66 ∨ sym = 0x46 then some [0x06]
  else if sym = 0x67 ∨ sym = 0x47 then some [0x07]
  else if sym = 0x68 ∨ sym = 0x48 then some [0x08]
  else if sym = 0x69 ∨ sym = 0x49 then some [0x09]
  else if sym = 0x6a ∨ sym = 0x4a then some [0x0a]
  else if sym = 0x6b ∨ sym = 0x4b then some [0x0b]
  else if sym = 0x6c ∨ sym = 0x4c then some [0x0c]
  else if sym = 0x6d ∨ sym = 0x4d then some [0x0d]
  else if sym = 0x6e ∨ sym = 0x4e then some [0x0e]
  else if sym = 0x6f ∨ sym = 0x4f then some [0x0f]
  else if sym = 0x70 ∨ sym = 0x50 then some [0x10]
  else if sym = 0x71 ∨ sym = 0x51 then some [0x11]
  else if sym = 0x72 ∨ sym = 0x52 then some [0x12]
  else if sym = 0x73 ∨ sym = 0x53 then some [0x13]
  else if sym = 0x74 ∨ sym = 0x54 then some [0x14]
  else if sym = 0x75 ∨ sym = 0x55 then some [0x15]
  else if sym = 0x76 ∨ sym = 0x56 then some [0x16]
  else if sym = 0x77 ∨ sym = 0x57 then some [0x17]
  else if sym = 0x78 ∨ sym = 0x58 then some [0x18]
  else if sym = 0x79 ∨ sym = 0x59 then some [0x19]
  else if sym = 0x7a ∨ sym = 0x5a then some [0x1a]
  else if sym = 0x33 ∨ sym = 0x5b ∨ sym = 0x7b then some [0x1b]
  else if sym = 0x34 ∨ sym = 0x5c ∨ sym = 0x7c then some [0x1c]
  else if sym = 0x35 ∨ sym = 0x5d ∨ sym = 0x7d then some [0x1d]
  else if sym = 0x36 ∨ sym = 0x60 ∨ sym = 0x7e then some [0x1e]
  else if sym = 0x37 ∨ sym = 0x2f ∨ sym = 0x3f then some [0x1f]
  else if sym = 0x38 then some [0x7f]
  else none

/-- The payload sent for a special keysym (the second switch of
`tsm_vte_handle_keyboard`); `none` when the switch falls through.
Keysym values are the xkbcommon codes named in the source. -/
def keysym_payload (v : VTE) (mods : Mods) (keysym : Nat) :
    Option (List Nat) :=
  if keysym = 0xff08 then some [0x08]                       -- BackSpace
  else if keysym = 0xff09 ∨ keysym = 0xff89 then some [0x09]  -- Tab, KP_Tab
  else if keysym = 0xfe20 then some [0x1b, 0x5b, 0x5a]      -- ISO_Left_Tab
  else if keysym = 0xff0a then some [0x0a]                  -- Linefeed
  else if keysym = 0xff0b then some [0x0b]                  -- Clear
  else if keysym = 0xff15 then some [0x15]                  -- Sys_Req
  else if keysym = 0xff1b then some [0x1b]                  -- Escape
  else if keysym = 0xff8d then                              -- KP_Enter
    if v.flags.keypad_application then some [0x1b, 0x4f, 0x4d]
    else if v.flags.lnm then some [0x0d, 0x0a] else some [0x0d]
  else if keysym = 0xff0d then                              -- Return
    if v.flags.lnm then some [0x0d, 0x0a] else some [0x0d]
  else if keysym = 0xff68 then some [0x1b, 0x5b, 0x31, 0x7e]  -- Find
  else if keysym = 0xff63 then some [0x1b, 0x5b, 0x32, 0x7e]  -- Insert
  else if keysym = 0xffff then some [0x1b, 0x5b, 0x33, 0x7e]  -- Delete
  else if keysym = 0xff60 then some [0x1b, 0x5b, 0x34, 0x7e]  -- Select
  else if keysym = 0xff55 ∨ keysym = 0xff9a then              -- Page_Up
    some [0x1b, 0x5b, 0x35, 0x7e]
  else if keysym = 0xff9b ∨ keysym = 0xff56 then              -- Page_Down
    some [0x1b, 0x5b, 0x36, 0x7e]
  else if keysym = 0xff52 ∨ keysym = 0xff97 then              -- Up
    if mods.ctrl then some [0x1b, 0x5b, 0x31, 0x3b, 0x35, 0x41]
    else if v.flags.cursor_key then some [0x1b, 0x4f, 0x41]
    else some [0x1b, 0x5b, 0x41]
  else if keysym = 0xff54 ∨ keysym = 0xff99 then              -- Down
    if mods.ctrl then some [0x1b, 0x5b, 0x31, 0x3b, 0x35, 0x42]
    else if v.flags.cursor_key then some [0x1b, 0x4f, 0x42]
    else some [0x1b, 0x5b, 0x42]
  else if keysym = 0xff53 ∨ keysym = 0xff98 then              -- Right
    if mods.ctrl then some [0x1b, 0x5b, 0x31, 0x3b, 0x35, 0x43]
    else if v.flags.cursor_key then some [0x1b, 0x4f, 0x43]
    else some [0x1b, 0x5b, 0x43]
  else if keysym = 0xff51 ∨ keysym = 0xff96 then              -- Left
    if mods.ctrl then some [0x1b, 0x5b, 0x31, 0x3b, 0x35, 0x44]
    else if v.flags.cursor_key then some [0x1b, 0x4f, 0x44]
    else some [0x1b, 0x5b, 0x44]
  else if keysym = 0xff9e ∨ keysym = 0xffb0 then              -- KP_Insert, KP_0
    if v.flags.keypad_application then some [0x1b, 0x4f, 0x70]
    else some [0x30]
  else if keysym = 0xffb1 then
    if v.flags.keypad_application then some [0x1b, 0x4f, 0x71]
    else some [0x31]
  else if keysym = 0xffb2 then
    if v.flags.keypad_application then some [0x1b, 0x4f, 0x72]
    else some [0x32]
  else if keysym = 0xffb3 then
    if v.flags.keypad_application then some [0x1b, 0x4f, 0x73]
    else some [0x33]
  else if keysym = 0xffb4 then
    if v.flags.keypad_application then some [0x1b, 0x4f, 0x74]
    else some [0x34]
  else if keysym = 0xffb5 then
    if v.flags.keypad_application then some [0x1b, 0x4f, 0x75]
    else some [0x35]
  else if keysym = 0xffb6 then
    if v.flags.keypad_application then some [0x1b, 0x4f, 0x76]
    else some [0x36]
  else if keysym = 0xffb7 then
    if v.flags.keypad_application then some [0x1b, 0x4f, 0x77]
    else some [0x37]
  else if keysym = 0xffb8 then
    if v.flags.keypad_application then some [0x1b, 0x4f, 0x78]
    else some [0x38]
  else if keysym = 0xffb9 then
    if v.flags.keypad_application then some [0x1b, 0x4f, 0x79]
    else some [0x39]
  else if keysym = 0xffad then                                -- KP_Subtract
    if v.flags.keypad_application then some [0x1b, 0x4f, 0x6d]
    else some [0x2d]
  else if keysym = 0xffac then                                -- KP_Separator
    if v.flags.keypad_application then some [0x1b, 0x4f, 0x6c]
    else some [0x2c]
  else if keysym = 0xff9f ∨ keysym = 0xffae then              -- KP_Delete/Decimal
    if v.flags.keypad_application then some [0x1b, 0x4f, 0x6e]
    else some [0x2e]
  else if keysym = 0xffbd ∨ keysym = 0xffaf then              -- KP_Equal/Divide
    if v.flags.keypad_application then some [0x1b, 0x4f, 0x6a]
    else some [0x2f]
  else if keysym = 0xffaa then                                -- KP_Multiply
    if v.flags.keypad_application then some [0x1b, 0x4f, 0x6f]
    else some [0x2a]
  else if keysym = 0xffab then                                -- KP_Add
    if v.flags.keypad_application then some [0x1b, 0x4f, 0x6b]
    else some [0x2b]
  else if keysym = 0xff50 ∨ keysym = 0xff95 then              -- Home
    if mods.ctrl then some [0x1b, 0x5b, 0x31, 0x3b, 0x35, 0x48]
    else if v.flags.cursor_key then some [0x1b, 0x4f, 0x48]
    else some [0x1b, 0x5b, 0x48]
  else if keysym = 0xff57 ∨ keysym = 0xff9c then              -- End
    if mods.ctrl then some [0x1b, 0x5b, 0x31, 0x3b, 0x35, 0x46]
    else if v.flags.cursor_key then some [0x1b, 0x4f, 0x46]
    else some [0x1b, 0x5b, 0x46]
  else if keysym = 0xff80 then some [0x20]                    -- KP_Space
  else if keysym = 0xffbe ∨ keysym = 0xff91 then              -- F1
    if mods.shift then some [0x1b, 0x5b, 0x32, 0x33, 0x7e]
    else some [0x1b, 0x4f, 0x50]
  else if keysym = 0xffbf ∨ keysym = 0xff92 then              -- F2
    if mods.shift then some [0x1b, 0x5b, 0x32, 0x34, 0x7e]
    else some [0x1b, 0x4f, 0x51]
  else if keysym = 0xffc0 ∨ keysym = 0xff93 then              -- F3
    if mods.shift then some [0x1b, 0x5b, 0x32, 0x35, 0x7e]
    else some [0x1b, 0x4f, 0x52]
  else if keysym = 0xffc1 ∨ keysym = 0xff94 then              -- F4
    if mods.shift then some [0x1b, 0x5b, 0x32, 0x36, 0x7e]
    else some [0x1b, 0x4f, 0x53]
  else if keysym = 0xffc2 then                                -- F5
    if mods.shift then some [0x1b, 0x5b, 0x32, 0x38, 0x7e]
    else some [0x1b, 0x5b, 0x31, 0x35, 0x7e]
  else if keysym = 0xffc3 then                                -- F6
    if mods.shift then some [0x1b, 0x5b, 0x32, 0x39, 0x7e]
    else some [0x1b, 0x5b, 0x31, 0x37, 0x7e]
  else if keysym = 0xffc4 then                                -- F7
    if mods.shift then some [0x1b, 0x5b, 0x33, 0x31, 0x7e]
    else some [0x1b, 0x5b, 0x31, 0x38, 0x7e]
  else if keysym = 0xffc5 then                                -- F8
    if mods.shift then some [0x1b, 0x5b, 0x33, 0x32, 0x7e]
    else some [0x1b, 0x5b, 0x31, 0x39, 0x7e]
  else if keysym = 0xffc6 then                                -- F9
    if mods.shift then some [0x1b, 0x5b, 0x33, 0x33, 0x7e]
    else some [0x1b, 0x5b, 0x32, 0x30, 0x7e]
  else if keysym = 0xffc7 then                                -- F10
    if mods.shift then some [0x1b, 0x5b, 0x33, 0x34, 0x7e]
    else some [0x1b, 0x5b, 0x32, 0x31, 0x7e]
  else if keysym = 0xffc8 then                                -- F11
    if mods.shift then some [0x1b, 0x5b, 0x32, 0x33, 0x3b, 0x32, 0x7e]
    else some [0x1b, 0x5b, 0x32, 0x33, 0x7e]
  else if keysym = 0xffc9 then                                -- F12
    if mods.shift then some [0x1b, 0x5b, 0x32, 0x34, 0x3b, 0x32, 0x7e]
    else some [0x1b, 0x5b, 0x32, 0x34, 0x7e]
  else if keysym = 0xffca then                                -- F13
    if mods.shift then some [0x1b, 0x5b, 0x32, 0x35, 0x3b, 0x32, 0x7e]
    else some [0x1b, 0x5b, 0x32, 0x35, 0x7e]
  else if keysym = 0xffcb then                                -- F14
    if mods.shift then some [0x1b, 0x5b, 0x32, 0x36, 0x3b, 0x32, 0x7e]
    else some [0x1b, 0x5b, 0x32, 0x36, 0x7e]
  else if keysym = 0xffcc then                                -- F15
    if mods.shift then some [0x1b, 0x5b, 0x32, 0x38, 0x3b, 0x32, 0x7e]
    else some [0x1b, 0x5b, 0x32, 0x38, 0x7e]
  else if keysym = 0xffcd then                                -- F16
    if mods.shift then some [0x1b, 0x5b, 0x32, 0x39, 0x3b, 0x32, 0x7e]
    else some [0x1b, 0x5b, 0x32, 0x39, 0x7e]
  else if keysym = 0xffce then                                -- F17
    if mods.shift then some [0x1b, 0x5b, 0x33, 0x31, 0x3b, 0x32, 0x7e]
    else some [0x1b, 0x5b, 0x33, 0x31, 0x7e]
  else if keysym = 0xffcf then                                -- F18
    if mods.shift then some [0x1b, 0x5b, 0x33, 0x32, 0x3b, 0x32, 0x7e]
    else some [0x1b, 0x5b, 0x33, 0x32, 0x7e]
  else if keysym = 0xffd0 then                                -- F19
    if mods.shift then some [0x1b, 0x5b, 0x33, 0x33, 0x3b, 0x32, 0x7e]
    else some [0x1b, 0x5b, 0x33, 0x33, 0x7e]
  else if keysym = 0xffd1 then                                -- F20
    if mods.shift then some [0x1b, 0x5b, 0x33, 0x34, 0x3b, 0x32, 0x7e]
    else some [0x1b, 0x5b, 0x33, 0x34, 0x7e]
  else none

/-- The unhandled-unicode tail of `tsm_vte_handle_keyboard`: 7-bit mode
truncates to one byte (`?` when bit 7 of the full codepoint is set), 8-bit
mode truncates (`?` above 0xff), UTF-8 mode encodes. -/
def keyboard_unicode_payload (v : VTE) (u : Nat) : List Nat :=
  if v.flags.mode7bit then
    [if u &&& 0x80 ≠ 0 then 0x3f else u % 256]
  else if v.flags.mode8bit then
    [if 0xff < u then 0x3f else u % 256]
  else utf8Encode (tsm_symbol_make u)

/-- `tsm_vte_handle_keyboard`: set the prepend-escape flag on Alt, try the
Ctrl shortcuts on the ascii-mapped keysym, then the special-key switch,
then the raw unicode; an unconsumed event clears the prepend-escape flag
and reports `false`.  The invalid unicode sentinel `TSM_VTE_INVALID` is
embedded as `none`. -/
def tsm_vte_handle_keyboard (v : VTE) (keysym ascii : Nat) (mods : Mods)
    (unicode : Option Nat) : VTE × Bool :=
  let v :=
    if mods.alt then { v with flags := { v.flags with prepend_escape := true } }
    else v
  let sym := if ascii = 0 then keysym else ascii
  match (if mods.ctrl then ctrl_payload sym else none) with
  | some p => (vte_write v p, true)
  | none =>
    match keysym_payload v mods keysym with
    | some p => (vte_write v p, true)
    | none =>
      match unicode with
      | some u => (vte_write v (keyboard_unicode_payload v u), true)
      | none =>
        ({ v with flags := { v.flags with prepend_escape := false } }, false)

/-!
## Invariant infrastructure

`CsiOk` is the CSI-accumulator invariant actually maintained by the code:
at most 16 slots, every stored value in [−1, 655359].  (`do_param` refuses
a digit only once the slot already exceeds 0xffff, so one further digit
can be absorbed on top of 65535; the interval is therefore not [−1, 65535]
but [−1, 65535·10+9].)  `Untouched v w` records that a transformer leaves
the re-entry counter and the whole CSI accumulator unchanged; `StepOk v w`
that it leaves the counter unchanged and preserves `CsiOk`. -/

def CsiOk (v : VTE) : Prop :=
  v.csi_argc ≤ CSI_ARG_MAX ∧
  ∀ j, -1 ≤ v.csi_argv j ∧ v.csi_argv j ≤ 655359

def Untouched (v w : VTE) : Prop :=
  w.parse_cnt = v.parse_cnt ∧ w.csi_argc = v.csi_argc ∧
  w.csi_argv = v.csi_argv

def StepOk (v w : VTE) : Prop :=
  w.parse_cnt = v.parse_cnt ∧ (CsiOk v → CsiOk w)

/-- The default-1 substitution of `do_csi`: an absent (−1) or
non-positive parameter becomes 1. -/
def csiDef1 (p : Int) : Nat := if p ≤ 0 then 1 else p.toNat

/-- A concrete state for the DSR witness: cursor at (x=4, y=9), DSR
parameter 6 collected. -/
def dsrDemoState : VTE :=
  { freshVTE with
    con := { cursor_x := 4, cursor_y := 9, events := [] },
    csi_argv := fun j => if j = 0 then 6 else -1 }

/-- A concrete state for the SGR-color witness: `CSI 38;5;100 m`
collected. -/
def sgrDemoState : VTE :=
  { freshVTE with
    csi_argc := 3,
    csi_argv := fun j =>
      if j = 0 then 38 else if j = 1 then 5 else if j = 2 then 100 else -1 }

/-- A local-echo state: counter zero, SEND_RECEIVE_MODE switched off. -/
def echoDemoState : VTE :=
  { freshVTE with flags := { freshVTE.flags with srm := false } }

/-- A collected DECSCL state: `CSI 62;2 p`. -/
def decsclDemoState : VTE :=
  { freshVTE with
    csi_argc := 2,
    csi_argv := fun j => if j = 0 then 62 else if j = 1 then 2 else -1 }

theorem untouched_refl (v : VTE) : Untouched v v := ⟨rfl, rfl, rfl⟩

theorem untouched_trans {u v w : VTE} (h1 : Untouched u v)
    (h2 : Untouched v w) : Untouched u w :=
  ⟨h2.1.trans h1.1, h2.2.1.trans h1.2.1, h2.2.2.trans h1.2.2⟩

theorem stepOk_refl (v : VTE) : StepOk v v := ⟨rfl, id⟩

theorem stepOk_trans {u v w : VTE} (h1 : StepOk u v) (h2 : StepOk v w) :
    StepOk u w :=
  ⟨h2.1.trans h1.1, fun h => h2.2 (h1.2 h)⟩

theorem untouched_stepOk {v w : VTE} (h : Untouched v w) : StepOk v w := by
  obtain ⟨h1, h2, h3⟩ := h
  exact ⟨h1, fun hc => ⟨h2 ▸ hc.1, h3 ▸ hc.2⟩⟩

theorem untouched_emit (v : VTE) (e : ScreenOp) : Untouched v (emit v e) :=
  ⟨rfl, rfl, rfl⟩

theorem untouched_move_to (v : VTE) (x y : Nat) :
    Untouched v (screen_move_to v x y) := ⟨rfl, rfl, rfl⟩

theorem untouched_write (v : VTE) (p : List Nat) :
    Untouched v (vte_write_in_parse v p) := ⟨rfl, rfl, rfl⟩

theorem untouched_write_console (v : VTE) (s : Nat) :
    Untouched v (write_console v s) := ⟨rfl, rfl, rfl⟩

theorem untouched_send_da (v : VTE) : Untouched v (send_primary_da v) :=
  ⟨rfl, rfl, rfl⟩

theorem untouched_save (v : VTE) : Untouched v (save_state v) :=
  ⟨rfl, rfl, rfl⟩

theorem untouched_soft_reset (v : VTE) : Untouched v (tsm_vte_reset v) :=
  ⟨rfl, rfl, rfl⟩

theorem untouched_hard_reset (v : VTE) :
    Untouched v (tsm_vte_hard_reset v) := ⟨rfl, rfl, rfl⟩

theorem untouched_restore (v : VTE) : Untouched v (restore_state v) := by
  simp only [restore_state]
  repeat' split
  all_goals exact ⟨rfl, rfl, rfl⟩

theorem untouched_do_execute (v : VTE) (ctrl : Nat) :
    Untouched v (do_execute v ctrl) := by
  unfold do_execute
  cases execTag ctrl <;> (repeat' split) <;> exact ⟨rfl, rfl, rfl⟩

theorem untouched_set_charset (v : VTE) (cs : Charset) :
    Untouched v (set_charset v cs).1 := by
  unfold set_charset
  repeat' split
  all_goals exact ⟨rfl, rfl, rfl⟩

theorem untouched_do_esc_plain (v : VTE) (d : Nat) :
    Untouched v (do_esc_plain v d) := by
  unfold do_esc_plain
  split
  · exact untouched_refl v
  · cases escTag d
    case ris => exact untouched_hard_reset v
    case decsc => exact untouched_save v
    case decrc => exact untouched_restore v
    all_goals exact ⟨rfl, rfl, rfl⟩

theorem untouched_do_esc (v : VTE) (d : Nat) : Untouched v (do_esc v d) := by
  unfold do_esc
  repeat' split
  all_goals first
    | exact ⟨rfl, rfl, rfl⟩
    | exact untouched_do_esc_plain v d
    | exact untouched_set_charset v _

theorem untouched_compat (v : VTE) : Untouched v (csi_compat_mode v) := by
  simp only [csi_compat_mode, csi_soft_reset]
  repeat' split
  all_goals exact ⟨rfl, rfl, rfl⟩

theorem untouched_mode_one (v : VTE) (b : Bool) (p : Int) :
    Untouched v (csi_mode_one v b p) := by
  unfold csi_mode_one
  split
  · cases ansiModeTag p <;> (repeat' split) <;> exact ⟨rfl, rfl, rfl⟩
  · cases decModeTag p <;> (repeat' split) <;> exact ⟨rfl, rfl, rfl⟩

theorem untouched_foldl_mode (b : Bool) (l : List Nat) (v : VTE) :
    Untouched v
      (l.foldl (fun w i => csi_mode_one w b (w.csi_argv i)) v) := by
  induction l generalizing v with
  | nil => exact untouched_refl v
  | cons i t ih =>
    simp only [List.foldl_cons]
    exact untouched_trans (untouched_mode_one v b (v.csi_argv i)) (ih _)

theorem untouched_csi_mode (v : VTE) (b : Bool) :
    Untouched v (csi_mode v b) := untouched_foldl_mode b _ v

theorem untouched_csi_dev_attr (v : VTE) : Untouched v (csi_dev_attr v) := by
  unfold csi_dev_attr
  repeat' split
  all_goals exact ⟨rfl, rfl, rfl⟩

theorem untouched_csi_dsr (v : VTE) : Untouched v (csi_dsr v) := by
  unfold csi_dsr
  repeat' split
  all_goals exact ⟨rfl, rfl, rfl⟩

theorem untouched_vte_map (v : VTE) (val : Nat) :
    Untouched v (vte_map v val).1 := by
  unfold vte_map
  repeat' split
  all_goals exact ⟨rfl, rfl, rfl⟩

theorem untouched_osc_collect (v : VTE) (val : Nat) :
    Untouched v (do_osc_collect v val) := by
  unfold do_osc_collect
  split
  all_goals exact ⟨rfl, rfl, rfl⟩

theorem stepOk_do_clear (v : VTE) : StepOk v (do_clear v) := by
  refine ⟨rfl, fun _ => ⟨?_, fun j => ?_⟩⟩
  · simp [do_clear, CSI_ARG_MAX]
  · simp [do_clear]

theorem stepOk_csi_bump (v : VTE) : StepOk v (csi_bump v) := by
  unfold csi_bump
  split
  · rename_i h
    refine ⟨rfl, fun hc => ⟨?_, hc.2⟩⟩
    show v.csi_argc + 1 ≤ CSI_ARG_MAX
    simp only [CSI_ARG_MAX] at h ⊢
    omega
  · exact stepOk_refl v

theorem stepOk_setArg_digit (v : VTE) (d : Nat)
    (hover : ¬ 0xffff < v.csi_argv v.csi_argc)
    (hd : 0x30 ≤ d ∧ d ≤ 0x39) :
    StepOk v (setArg v v.csi_argc (do_param_digit v d)) := by
  refine ⟨rfl, fun hc => ⟨hc.1, fun j => ?_⟩⟩
  show -1 ≤ (if j = v.csi_argc then do_param_digit v d else v.csi_argv j) ∧
    (if j = v.csi_argc then do_param_digit v d else v.csi_argv j) ≤ 655359
  split
  · unfold do_param_digit
    split <;> omega
  · exact hc.2 j

theorem stepOk_do_param (v : VTE) (d : Nat) : StepOk v (do_param v d) := by
  unfold do_param
  repeat' split
  all_goals first
    | exact stepOk_refl v
    | (rename_i h
       refine ⟨rfl, fun hc => ⟨?_, hc.2⟩⟩
       show v.csi_argc + 1 ≤ CSI_ARG_MAX
       simp only [CSI_ARG_MAX] at h ⊢
       omega)
    | (apply stepOk_setArg_digit <;> assumption)

theorem stepOk_csi_attribute_norm (v : VTE) :
    StepOk v (csi_attribute_norm v) := by
  unfold csi_attribute_norm
  split
  · refine ⟨rfl, fun hc => ⟨?_, fun j => ?_⟩⟩
    · show 1 ≤ CSI_ARG_MAX
      simp [CSI_ARG_MAX]
    · show -1 ≤ (if j = 0 then (0 : Int) else v.csi_argv j) ∧
        (if j = 0 then (0 : Int) else v.csi_argv j) ≤ 655359
      split
      · omega
      · exact hc.2 j
  · exact stepOk_refl v

theorem untouched_csi_attribute_apply (v : VTE) :
    Untouched v (csi_attribute_apply v) := by
  unfold csi_attribute_apply
  split
  all_goals exact ⟨rfl, rfl, rfl⟩

theorem stepOk_csi_attribute (v : VTE) : StepOk v (csi_attribute v) :=
  stepOk_trans (stepOk_csi_attribute_norm v)
    (untouched_stepOk (untouched_csi_attribute_apply (csi_attribute_norm v)))

theorem stepOk_do_csi_post (v : VTE) (d : Nat) :
    StepOk v (do_csi_post v d) := by
  unfold do_csi_post
  split
  all_goals repeat' split
  all_goals first
      | exact stepOk_refl v
      | exact stepOk_csi_attribute v
      | exact untouched_stepOk (untouched_emit _ _)
      | exact untouched_stepOk (untouched_move_to _ _ _)
      | exact untouched_stepOk (untouched_csi_mode _ _)
      | exact untouched_stepOk (untouched_csi_dev_attr _)
      | exact untouched_stepOk (untouched_csi_dsr _)
      | exact untouched_stepOk (untouched_soft_reset _)
      | exact untouched_stepOk (untouched_compat _)

theorem stepOk_do_csi (v : VTE) (d : Nat) : StepOk v (do_csi v d) :=
  stepOk_trans (stepOk_csi_bump v) (stepOk_do_csi_post (csi_bump v) d)

theorem stepOk_do_action (v : VTE) (d : Nat) (a : PAction) :
    StepOk v (do_action v d a) := by
  unfold do_action
  cases a
  case print =>
    exact untouched_stepOk
      (untouched_trans (untouched_vte_map v d) (untouched_write_console _ _))
  case execute => exact untouched_stepOk (untouched_do_execute v d)
  case clear => exact stepOk_do_clear v
  case collect => exact untouched_stepOk ⟨rfl, rfl, rfl⟩
  case param => exact stepOk_do_param v d
  case escDispatch => exact untouched_stepOk (untouched_do_esc v d)
  case csiDispatch => exact stepOk_do_csi v d
  case oscStart => exact stepOk_do_clear v
  case oscCollect => exact untouched_stepOk (untouched_osc_collect v d)
  all_goals exact stepOk_refl v

theorem stepOk_do_trans (v : VTE) (d : Nat) (st : PState) (a : PAction) :
    StepOk v (do_trans v d st a) := by
  unfold do_trans
  split
  · refine stepOk_trans (stepOk_do_action v d (exit_action v.state))
      (stepOk_trans (stepOk_do_action _ d a)
        (stepOk_trans (stepOk_do_action _ d (entry_action st))
          (untouched_stepOk ⟨rfl, rfl, rfl⟩)))
  · exact stepOk_do_action v d a

theorem stepOk_parse_data (v : VTE) (raw : Nat) :
    StepOk v (parse_data v raw) :=
  stepOk_do_trans v raw (parse_table v.state raw).1 (parse_table v.state raw).2

theorem stepOk_input_byte (v : VTE) (b : Nat) :
    StepOk v (tsm_vte_input_byte v b) := by
  unfold tsm_vte_input_byte
  repeat' split
  all_goals first
    | exact stepOk_parse_data v _
    | exact untouched_stepOk ⟨rfl, rfl, rfl⟩
    | exact stepOk_trans (untouched_stepOk ⟨rfl, rfl, rfl⟩)
        (stepOk_parse_data _ _)

theorem stepOk_foldl_input (bytes : List Nat) (v : VTE) :
    StepOk v (bytes.foldl tsm_vte_input_byte v) := by
  induction bytes generalizing v with
  | nil => exact stepOk_refl v
  | cons b t ih =>
    simp only [List.foldl_cons]
    exact stepOk_trans (stepOk_input_byte v b) (ih _)

/-- The master invariance theorem for `tsm_vte_input`: the re-entry counter
returns to its pre-call value, and the CSI-accumulator invariant is
preserved. -/
theorem input_preserves (v : VTE) (bytes : List Nat) :
    (tsm_vte_input v bytes).parse_cnt = v.parse_cnt ∧
    (CsiOk v → CsiOk (tsm_vte_input v bytes)) := by
  unfold tsm_vte_input
  have h := stepOk_foldl_input bytes { v with parse_cnt := v.parse_cnt + 1 }
  refine ⟨?_, fun hc => ?_⟩
  · simp only [h.1]
    omega
  · have : CsiOk { v with parse_cnt := v.parse_cnt + 1 } := ⟨hc.1, hc.2⟩
    have h2 := h.2 this
    exact ⟨h2.1, h2.2⟩

/-!
## Claim C1: CSI parameter bounds
-/

/-- Claim C1, counterexample: the input `ESC [65536m` leaves
`csi_argv[0] = 65536 > 65535` after `tsm_vte_input` returns, because
`do_param` refuses a digit only once the slot already exceeds 0xffff.
This refutes "every stored CSI parameter value lies in [−1, 65535]". -/
theorem csi_param_exceeds_65535 :
    65535 < (tsm_vte_input freshVTE
      [0x1b, 0x5b, 0x36, 0x35, 0x35, 0x33, 0x36, 0x6d]).csi_argv 0 := by
  decide

/-- Claim C1, amended: after any `tsm_vte_input` call (starting from a
state satisfying the accumulator invariant), `csi_argc ≤ 16` and every
stored CSI parameter lies in [−1, 655359]; a digit is refused exactly once
the stored value exceeds 65535 (so one digit can still be absorbed on top
of a value ≤ 65535, giving the bound 65535·10+9). -/
theorem csi_param_bounds (v : VTE) (bytes : List Nat) (h : CsiOk v) :
    (tsm_vte_input v bytes).csi_argc ≤ 16 ∧
    (∀ j, -1 ≤ (tsm_vte_input v bytes).csi_argv j ∧
      (tsm_vte_input v bytes).csi_argv j ≤ 655359) ∧
    (∀ d, 0x30 ≤ d → d ≤ 0x39 → 65535 < v.csi_argv v.csi_argc →
      do_param v d = v) := by
  obtain ⟨_, h2⟩ := input_preserves v bytes
  refine ⟨(h2 h).1, (h2 h).2, fun d hd1 hd2 hover => ?_⟩
  unfold do_param
  have hne : ¬ d = 0x3b := by omega
  simp [hne, hover]

/-- Witness for `csi_param_bounds` at a fresh VTE and the input
`ESC [31m`. -/
theorem csi_param_bounds_witness :
    (tsm_vte_input freshVTE [0x1b, 0x5b, 0x33, 0x31, 0x6d]).csi_argc ≤ 16 := by
  have h : CsiOk freshVTE := by
    refine ⟨by decide, fun j => ?_⟩
    have hv : freshVTE.csi_argv j = 0 := rfl
    rw [hv]
    omega
  exact (csi_param_bounds freshVTE [0x1b, 0x5b, 0x33, 0x31, 0x6d] h).1

/-!
## Claim C2: single-shift clearing on PRINT
-/

/-- Claim C2, counterexample: `ESC N` (SS2) arms the GL single-shift, and
the following PRINT of codepoint 32 leaves it armed — printed codepoints
32, 127, 160, 255 and values above 255 do not clear an active single
shift, refuting "after every PRINT action ... any active single-shift
pointer is cleared". -/
theorem print_32_keeps_single_shift :
    (tsm_vte_input freshVTE [0x1b, 0x4e, 0x20]).glt = some GSlot.g2 ∧
    (tsm_vte_input freshVTE [0x1b, 0x4e, 0x20]).glt ≠ none := by
  decide

/-- Range behavior of `vte_map`: GL and GR are untouched; a codepoint in
33..126 consumes the GL single-shift (leaving GR's), one in 161..254
consumes the GR single-shift (leaving GL's), and every other codepoint
leaves both untouched. -/
theorem vte_map_ranges (v : VTE) (cp : Nat) :
    ((vte_map v cp).1.gl = v.gl ∧ (vte_map v cp).1.gr = v.gr) ∧
    (33 ≤ cp → cp ≤ 126 →
      (vte_map v cp).1.glt = none ∧ (vte_map v cp).1.grt = v.grt) ∧
    (161 ≤ cp → cp ≤ 254 →
      (vte_map v cp).1.grt = none ∧ (vte_map v cp).1.glt = v.glt) ∧
    (¬ (33 ≤ cp ∧ cp ≤ 126) → ¬ (161 ≤ cp ∧ cp ≤ 254) →
      (vte_map v cp).1.glt = v.glt ∧ (vte_map v cp).1.grt = v.grt) := by
  unfold vte_map
  repeat' split
  all_goals
    refine ⟨⟨rfl, rfl⟩, fun h1 h2 => ?_, fun h1 h2 => ?_, fun h1 h2 => ?_⟩
  all_goals first
    | exact ⟨rfl, rfl⟩
    | exact ⟨by assumption, rfl⟩
    | (exfalso; omega)

/-- Claim C2, amended: GL and GR always denote one of the four G-set slots
(they are slot-valued throughout, and PRINT leaves them unchanged); after
a PRINT of a codepoint in 33..126 the GL single-shift is cleared (the GR
one kept), after one in 161..254 the GR single-shift is cleared (the GL
one kept), and a PRINT of any other codepoint — 32, 127, 160, 255 and
everything above 255 — leaves both single-shift pointers unchanged. -/
theorem print_single_shift_behavior (v : VTE) (cp : Nat) :
    ((do_action v cp PAction.print).gl = v.gl ∧
     (do_action v cp PAction.print).gr = v.gr) ∧
    (33 ≤ cp → cp ≤ 126 →
      (do_action v cp PAction.print).glt = none ∧
      (do_action v cp PAction.print).grt = v.grt) ∧
    (161 ≤ cp → cp ≤ 254 →
      (do_action v cp PAction.print).grt = none ∧
      (do_action v cp PAction.print).glt = v.glt) ∧
    (¬ (33 ≤ cp ∧ cp ≤ 126) → ¬ (161 ≤ cp ∧ cp ≤ 254) →
      (do_action v cp PAction.print).glt = v.glt ∧
      (do_action v cp PAction.print).grt = v.grt) :=
  vte_map_ranges v cp

/-- Witness for `print_single_shift_behavior`: printing `A` (65) clears an
armed GL single-shift. -/
theorem print_single_shift_behavior_witness :
    (do_action { freshVTE with glt := some GSlot.g2 } 65
      PAction.print).glt = none :=
  ((print_single_shift_behavior { freshVTE with glt := some GSlot.g2 }
    65).2.1 (by norm_num) (by norm_num)).1

/-!
## Claim C3: CSI parameter defaults
-/

/-- Claim C3, counterexample: `ESC [r` (DECSTBM with absent parameters)
sets the margins to (0, 0), not (1, 1) — the `r` final substitutes 0, not
1, for an absent parameter, refuting the claim for DECSTBM. -/
theorem decstbm_default_zero :
    (tsm_vte_input freshVTE [0x1b, 0x5b, 0x72]).con.events.getLast? =
      some (ScreenOp.setMargins 0 0) := by
  decide

theorem csiDef1_eq (p : Int) :
    (if p ≤ 0 then (1 : Int) else p).toNat = csiDef1 p := by
  unfold csiDef1
  split <;> simp

theorem csiDef1_sub_one (p : Int) :
    ((if p ≤ 0 then (1 : Int) else p) - 1).toNat = csiDef1 p - 1 := by
  unfold csiDef1
  split <;> omega

theorem stbm_clip (p : Int) : (if p < 0 then (0 : Int) else p).toNat = p.toNat := by
  split <;> omega

/-- Claim C3, amended: every listed CSI dispatch substitutes 1 for an
absent (−1) or non-positive parameter — the cursor moves A/B/C/D, VPA/VPR
(for the parameter-derived coordinate), CUP/HVP, CHA, ECH, IL/DL, ICH/DCH,
CBT/CHT and SU/SD — but DECSTBM (final byte `r`) substitutes 0: a negative
(absent) parameter is clipped to 0 and passed to `set_margins` as is, so
`ESC [r` yields margins (0, 0). -/
theorem csi_default_params (v : VTE) :
    ((do_csi v 0x41).con.events =
      v.con.events ++ [ScreenOp.moveUp (csiDef1 (v.csi_argv 0)) false]) ∧
    ((do_csi v 0x42).con.events =
      v.con.events ++ [ScreenOp.moveDown (csiDef1 (v.csi_argv 0)) false]) ∧
    ((do_csi v 0x43).con.events =
      v.con.events ++ [ScreenOp.moveRight (csiDef1 (v.csi_argv 0))]) ∧
    ((do_csi v 0x44).con.events =
      v.con.events ++ [ScreenOp.moveLeft (csiDef1 (v.csi_argv 0))]) ∧
    ((do_csi v 0x64).con.events =
      v.con.events ++
        [ScreenOp.moveTo v.con.cursor_x (csiDef1 (v.csi_argv 0) - 1)]) ∧
    ((do_csi v 0x65).con.events =
      v.con.events ++
        [ScreenOp.moveTo v.con.cursor_x
          (v.con.cursor_y + csiDef1 (v.csi_argv 0))]) ∧
    ((do_csi v 0x48).con.events =
      v.con.events ++
        [ScreenOp.moveTo (csiDef1 (v.csi_argv 1) - 1)
          (csiDef1 (v.csi_argv 0) - 1)]) ∧
    ((do_csi v 0x66).con.events =
      v.con.events ++
        [ScreenOp.moveTo (csiDef1 (v.csi_argv 1) - 1)
          (csiDef1 (v.csi_argv 0) - 1)]) ∧
    ((do_csi v 0x47).con.events =
      v.con.events ++
        [ScreenOp.moveTo (csiDef1 (v.csi_argv 0) - 1) v.con.cursor_y]) ∧
    ((do_csi v 0x58).con.events =
      v.con.events ++ [ScreenOp.eraseChars (csiDef1 (v.csi_argv 0))]) ∧
    ((do_csi v 0x4c).con.events =
      v.con.events ++ [ScreenOp.insertLines (csiDef1 (v.csi_argv 0))]) ∧
    ((do_csi v 0x4d).con.events =
      v.con.events ++ [ScreenOp.deleteLines (csiDef1 (v.csi_argv 0))]) ∧
    ((do_csi v 0x40).con.events =
      v.con.events ++ [ScreenOp.insertChars (csiDef1 (v.csi_argv 0))]) ∧
    ((do_csi v 0x50).con.events =
      v.con.events ++ [ScreenOp.deleteChars (csiDef1 (v.csi_argv 0))]) ∧
    ((do_csi v 0x5a).con.events =
      v.con.events ++ [ScreenOp.tabLeft (csiDef1 (v.csi_argv 0))]) ∧
    ((do_csi v 0x49).con.events =
      v.con.events ++ [ScreenOp.tabRight (csiDef1 (v.csi_argv 0))]) ∧
    ((do_csi v 0x53).con.events =
      v.con.events ++ [ScreenOp.scrollUp (csiDef1 (v.csi_argv 0))]) ∧
    ((do_csi v 0x54).con.events =
      v.con.events ++ [ScreenOp.scrollDown (csiDef1 (v.csi_argv 0))]) ∧
    ((do_csi v 0x72).con.events =
      v.con.events ++
        [ScreenOp.setMargins (v.csi_argv 0).toNat (v.csi_argv 1).toNat]) := by
  refine ⟨?_, ?_, ?_, ?_, ?_, ?_, ?_, ?_, ?_, ?_, ?_, ?_, ?_, ?_, ?_, ?_,
    ?_, ?_, ?_⟩
  all_goals
    simp [do_csi, do_csi_post, csi_bump, csiTag, emit, screen_move_to,
      csiDef1_eq, csiDef1_sub_one, stbm_clip]
  all_goals split <;> simp

/-!
## Claim C4: DECSC/DECRC round trip
-/

/-- Claim C4: DECSC immediately followed by DECRC — with no intervening
palette change, and starting from a state whose current attribute is
already palette-resolved (which every reachable state satisfies, since
every mutation of `cattr` ends in `to_rgb`) — restores the cursor
position, the current attribute, the GL and GR pointers, and the
auto-wrap and origin flags exactly. -/
theorem decsc_decrc_roundtrip (v : VTE)
    (h : to_rgb v.palette v.cattr = v.cattr) :
    (restore_state (save_state v)).con.cursor_x = v.con.cursor_x ∧
    (restore_state (save_state v)).con.cursor_y = v.con.cursor_y ∧
    (restore_state (save_state v)).cattr = v.cattr ∧
    (restore_state (save_state v)).gl = v.gl ∧
    (restore_state (save_state v)).gr = v.gr ∧
    (restore_state (save_state v)).flags.auto_wrap = v.flags.auto_wrap ∧
    (restore_state (save_state v)).flags.origin = v.flags.origin := by
  cases hw : v.flags.auto_wrap <;> cases ho : v.flags.origin <;>
    cases hb : v.flags.bce <;>
      simp [save_state, restore_state, screen_move_to, emit, hw, ho, hb, h]

/-- Witness for `decsc_decrc_roundtrip` at a fresh VTE. -/
theorem decsc_decrc_roundtrip_witness :
    (restore_state (save_state freshVTE)).cattr = freshVTE.cattr :=
  (decsc_decrc_roundtrip freshVTE (by decide)).2.2.1

/-!
## Claim C5: DSR replies
-/

theorem decDigits_len_le (k : Nat) : ∀ n, n < 10 ^ k → 0 < k →
    (decDigits n).length ≤ k := by
  induction k with
  | zero => intro n _ hk; omega
  | succ k ih =>
    intro n hn _
    rw [decDigits]
    split
    · simp
    · rename_i hbig
      have hk : 0 < k := by
        by_contra hk0
        have : k = 0 := by omega
        subst this
        simp at hn
        omega
      have hdiv : n / 10 < 10 ^ k := by
        have := Nat.pow_succ 10 k
        omega
      have := ih (n / 10) hdiv hk
      simp only [List.length_append, List.length_cons, List.length_nil]
      omega

/-- Claim C5: DSR with parameter 5 hands exactly the bytes `ESC [0n` to
the writer; DSR with parameter 6 hands exactly `ESC [<y+1>;<x+1>R` (with
the 0-based cursor read back from the screen) whenever the coordinates fit
an `unsigned int`, and the fallback `ESC [0;0R` is sent exactly when the
formatted report does not fit the 64-byte buffer.  The prepend-escape
flag is assumed clear so that the writer adds nothing. -/
theorem dsr_replies (v : VTE) (hp : v.flags.prepend_escape = false) :
    (v.csi_argv 0 = 5 →
      (csi_dsr v).out = v.out ++ [0x1b, 0x5b, 0x30, 0x6e]) ∧
    (v.csi_argv 0 = 6 → v.con.cursor_x < 2 ^ 32 → v.con.cursor_y < 2 ^ 32 →
      (csi_dsr v).out = v.out ++ [0x1b, 0x5b] ++
        decDigits (v.con.cursor_y + 1) ++ [0x3b] ++
        decDigits (v.con.cursor_x + 1) ++ [0x52]) ∧
    (v.csi_argv 0 = 6 → 64 ≤ (dsr6_buf v).length →
      (csi_dsr v).out = v.out ++ [0x1b, 0x5b, 0x30, 0x3b, 0x30, 0x52]) := by
  refine ⟨fun h5 => ?_, fun h6 hx hy => ?_, fun h6 hlen => ?_⟩
  · simp [csi_dsr, h5, vte_write_in_parse, hp]
  · have hxl : (decDigits (v.con.cursor_x + 1)).length ≤ 10 := by
      refine decDigits_len_le 10 _ ?_ (by norm_num)
      have : (2 : Nat) ^ 32 < 10 ^ 10 := by norm_num
      omega
    have hyl : (decDigits (v.con.cursor_y + 1)).length ≤ 10 := by
      refine decDigits_len_le 10 _ ?_ (by norm_num)
      have : (2 : Nat) ^ 32 < 10 ^ 10 := by norm_num
      omega
    simp [csi_dsr, h6, vte_write_in_parse, hp, dsr6_buf]
    rw [if_neg (by omega :
      ¬ 62 ≤ (decDigits (v.con.cursor_y + 1)).length +
        ((decDigits (v.con.cursor_x + 1)).length + 1 + 1))]
  · simp [csi_dsr, h6, hlen, vte_write_in_parse, hp]

/-- Witness for `dsr_replies`: at (x=4, y=9) the DSR-6 report is
`ESC [10;5R`. -/
theorem dsr_replies_witness :
    (csi_dsr dsrDemoState).out = dsrDemoState.out ++ [0x1b, 0x5b] ++
      decDigits (dsrDemoState.con.cursor_y + 1) ++ [0x3b] ++
      decDigits (dsrDemoState.con.cursor_x + 1) ++ [0x52] :=
  (dsr_replies dsrDemoState (by decide)).2.1 (by decide) (by decide)
    (by decide)

/-!
## Claim C7: soft reset
-/

/-- Claim C7: after a soft reset the parser state is GROUND, the four
G-sets are at their defaults with GL = G0 and GR = G1, the current
attribute equals the default attribute (which is palette-resolved in
every reachable state), and the flag word has exactly the cursor-visible,
auto-wrap, send-receive, auto-repeat and background-color-erase bits
set. -/
theorem soft_reset_state (v : VTE)
    (h : to_rgb v.palette v.def_attr = v.def_attr) :
    (tsm_vte_reset v).state = PState.ground ∧
    (tsm_vte_reset v).g0 = Charset.unicodeLower ∧
    (tsm_vte_reset v).g1 = Charset.unicodeUpper ∧
    (tsm_vte_reset v).g2 = Charset.unicodeLower ∧
    (tsm_vte_reset v).g3 = Charset.unicodeUpper ∧
    (tsm_vte_reset v).gl = GSlot.g0 ∧
    (tsm_vte_reset v).gr = GSlot.g1 ∧
    (tsm_vte_reset v).cattr = v.def_attr ∧
    (tsm_vte_reset v).flags =
      { VteFlags.zero with
          text_cursor := true, auto_repeat := true,
          srm := true, auto_wrap := true, bce := true } := by
  refine ⟨rfl, rfl, rfl, rfl, rfl, rfl, rfl, ?_, rfl⟩
  show to_rgb v.palette v.def_attr = v.def_attr
  exact h

/-- Witness for `soft_reset_state` at a fresh VTE. -/
theorem soft_reset_state_witness :
    (tsm_vte_reset freshVTE).cattr = freshVTE.def_attr :=
  (soft_reset_state freshVTE (by decide)).2.2.2.2.2.2.2.1

/-!
## Claim C6: extended SGR colors
-/

theorem to_rgb_neg_f (pal : Nat → Nat × Nat × Nat) (a : Attr)
    (h : a.fccode < 0) :
    (to_rgb pal a).fccode = a.fccode ∧ (to_rgb pal a).fr = a.fr ∧
    (to_rgb pal a).fg = a.fg ∧ (to_rgb pal a).fb = a.fb := by
  simp only [to_rgb]
  rw [if_neg (not_le.mpr h)]
  split <;> simp

theorem to_rgb_neg_b (pal : Nat → Nat × Nat × Nat) (a : Attr)
    (h : a.bccode < 0) :
    (to_rgb pal a).bccode = a.bccode ∧ (to_rgb pal a).br = a.br ∧
    (to_rgb pal a).bg = a.bg ∧ (to_rgb pal a).bb = a.bb := by
  simp only [to_rgb]
  split <;> simp [not_le.mpr h]

theorem csi_attribute_cattr (v : VTE) :
    (csi_attribute v).cattr = csi_attribute_attr (csi_attribute_norm v) := by
  unfold csi_attribute csi_attribute_apply
  split <;> rfl

theorem csi_attribute_norm_id (v : VTE)
    (h : ¬ (v.csi_argc ≤ 1 ∧ v.csi_argv 0 = -1)) :
    csi_attribute_norm v = v := by
  unfold csi_attribute_norm
  rw [if_neg h]

theorem sgr_apply_ext5 (dA : Attr) (argv : Nat → Int) (a : Attr)
    (h0 : argv 0 = 38 ∨ argv 0 = 48) (h1 : argv 1 = 5) (h2 : 0 ≤ argv 2) :
    sgr_apply dA argv 3 a 0 = sgr_256color a (argv 0) (argv 2).toNat := by
  have ht : sgrTag (argv 0) = SgrTag.extended := by
    rcases h0 with h | h <;> rw [h] <;> decide
  rw [sgr_apply, dif_pos (by norm_num : (0 : Nat) < 3)]
  simp only [sgr_step, ht]
  norm_num [h1, not_lt.mpr h2]
  rw [sgr_apply, dif_neg (by norm_num : ¬ (3 : Nat) < 3)]

theorem sgr_apply_ext2 (dA : Attr) (argv : Nat → Int) (a : Attr)
    (h0 : argv 0 = 38 ∨ argv 0 = 48) (h1 : argv 1 = 2)
    (h2 : 0 ≤ argv 2) (h3 : 0 ≤ argv 3) (h4 : 0 ≤ argv 4) :
    sgr_apply dA argv 5 a 0 =
      sgr_truecolor a (argv 0) ((argv 2).toNat % 256) ((argv 3).toNat % 256)
        ((argv 4).toNat % 256) := by
  have ht : sgrTag (argv 0) = SgrTag.extended := by
    rcases h0 with h | h <;> rw [h] <;> decide
  rw [sgr_apply, dif_pos (by norm_num : (0 : Nat) < 5)]
  simp only [sgr_step, ht]
  norm_num [h1, not_lt.mpr h2, not_lt.mpr h3, not_lt.mpr h4]
  rw [sgr_apply, dif_neg (by norm_num : ¬ (5 : Nat) < 5)]

theorem sgr256_cube_f (pal : Nat → Nat × Nat × Nat) (a : Attr) (i : Nat)
    (h1 : 16 ≤ i) (h2 : i ≤ 231) :
    (to_rgb pal (sgr_256color a 38 i)).fccode = -1 ∧
    (to_rgb pal (sgr_256color a 38 i)).fr = bval ((i - 16) / 36 % 6) ∧
    (to_rgb pal (sgr_256color a 38 i)).fg = bval ((i - 16) / 6 % 6) ∧
    (to_rgb pal (sgr_256color a 38 i)).fb = bval ((i - 16) % 6) := by
  have e : sgr_256color a 38 i =
      { a with fccode := -1, fr := bval ((i - 16) / 36 % 6),
               fg := bval ((i - 16) / 6 % 6), fb := bval ((i - 16) % 6) } := by
    simp only [sgr_256color]
    rw [if_neg (by omega : ¬ i < 16), if_pos (by omega : i < 232)]
    norm_num
  rw [e]
  have q := to_rgb_neg_f pal
    { a with fccode := -1, fr := bval ((i - 16) / 36 % 6),
             fg := bval ((i - 16) / 6 % 6), fb := bval ((i - 16) % 6) }
    (by simp)
  simpa using q

theorem sgr256_cube_b (pal : Nat → Nat × Nat × Nat) (a : Attr) (i : Nat)
    (h1 : 16 ≤ i) (h2 : i ≤ 231) :
    (to_rgb pal (sgr_256color a 48 i)).bccode = -1 ∧
    (to_rgb pal (sgr_256color a 48 i)).br = bval ((i - 16) / 36 % 6) ∧
    (to_rgb pal (sgr_256color a 48 i)).bg = bval ((i - 16) / 6 % 6) ∧
    (to_rgb pal (sgr_256color a 48 i)).bb = bval ((i - 16) % 6) := by
  have e : sgr_256color a 48 i =
      { a with bccode := -1, br := bval ((i - 16) / 36 % 6),
               bg := bval ((i - 16) / 6 % 6), bb := bval ((i - 16) % 6) } := by
    simp only [sgr_256color]
    rw [if_neg (by omega : ¬ i < 16), if_pos (by omega : i < 232)]
    norm_num
  rw [e]
  have q := to_rgb_neg_b pal
    { a with bccode := -1, br := bval ((i - 16) / 36 % 6),
             bg := bval ((i - 16) / 6 % 6), bb := bval ((i - 16) % 6) }
    (by simp)
  simpa using q

theorem sgr256_gray_f (pal : Nat → Nat × Nat × Nat) (a : Attr) (i : Nat)
    (h1 : 232 ≤ i) (h2 : i ≤ 255) :
    (to_rgb pal (sgr_256color a 38 i)).fccode = -1 ∧
    (to_rgb pal (sgr_256color a 38 i)).fr = (i - 232) * 10 + 8 ∧
    (to_rgb pal (sgr_256color a 38 i)).fg = (i - 232) * 10 + 8 ∧
    (to_rgb pal (sgr_256color a 38 i)).fb = (i - 232) * 10 + 8 := by
  have hm : ((i - 232) * 10 + 8) % 256 = (i - 232) * 10 + 8 :=
    Nat.mod_eq_of_lt (by omega)
  have e : sgr_256color a 38 i =
      { a with fccode := -1, fr := (i - 232) * 10 + 8,
               fg := (i - 232) * 10 + 8, fb := (i - 232) * 10 + 8 } := by
    simp only [sgr_256color]
    rw [if_neg (by omega : ¬ i < 16), if_neg (by omega : ¬ i < 232), hm]
    norm_num
  rw [e]
  have q := to_rgb_neg_f pal
    { a with fccode := -1, fr := (i - 232) * 10 + 8,
             fg := (i - 232) * 10 + 8, fb := (i - 232) * 10 + 8 }
    (by simp)
  simpa using q

theorem sgr256_gray_b (pal : Nat → Nat × Nat × Nat) (a : Attr) (i : Nat)
    (h1 : 232 ≤ i) (h2 : i ≤ 255) :
    (to_rgb pal (sgr_256color a 48 i)).bccode = -1 ∧
    (to_rgb pal (sgr_256color a 48 i)).br = (i - 232) * 10 + 8 ∧
    (to_rgb pal (sgr_256color a 48 i)).bg = (i - 232) * 10 + 8 ∧
    (to_rgb pal (sgr_256color a 48 i)).bb = (i - 232) * 10 + 8 := by
  have hm : ((i - 232) * 10 + 8) % 256 = (i - 232) * 10 + 8 :=
    Nat.mod_eq_of_lt (by omega)
  have e : sgr_256color a 48 i =
      { a with bccode := -1, br := (i - 232) * 10 + 8,
               bg := (i - 232) * 10 + 8, bb := (i - 232) * 10 + 8 } := by
    simp only [sgr_256color]
    rw [if_neg (by omega : ¬ i < 16), if_neg (by omega : ¬ i < 232), hm]
    norm_num
  rw [e]
  have q := to_rgb_neg_b pal
    { a with bccode := -1, br := (i - 232) * 10 + 8,
             bg := (i - 232) * 10 + 8, bb := (i - 232) * 10 + 8 }
    (by simp)
  simpa using q

theorem sgrtrue_f (pal : Nat → Nat × Nat × Nat) (a : Attr) (r g b : Nat) :
    (to_rgb pal (sgr_truecolor a 38 r g b)).fccode = -1 ∧
    (to_rgb pal (sgr_truecolor a 38 r g b)).fr = r ∧
    (to_rgb pal (sgr_truecolor a 38 r g b)).fg = g ∧
    (to_rgb pal (sgr_truecolor a 38 r g b)).fb = b := by
  have e : sgr_truecolor a 38 r g b =
      { a with fccode := -1, fr := r, fg := g, fb := b } := by
    simp [sgr_truecolor]
  rw [e]
  have q := to_rgb_neg_f pal { a with fccode := -1, fr := r, fg := g, fb := b }
    (by simp)
  simpa using q

theorem sgrtrue_b (pal : Nat → Nat × Nat × Nat) (a : Attr) (r g b : Nat) :
    (to_rgb pal (sgr_truecolor a 48 r g b)).bccode = -1 ∧
    (to_rgb pal (sgr_truecolor a 48 r g b)).br = r ∧
    (to_rgb pal (sgr_truecolor a 48 r g b)).bg = g ∧
    (to_rgb pal (sgr_truecolor a 48 r g b)).bb = b := by
  have e : sgr_truecolor a 48 r g b =
      { a with bccode := -1, br := r, bg := g, bb := b } := by
    simp [sgr_truecolor]
  rw [e]
  have q := to_rgb_neg_b pal { a with bccode := -1, br := r, bg := g, bb := b }
    (by simp)
  simpa using q

/-- Claim C6: the extended SGR colors.  A `CSI 38;5;i m` with 16 ≤ i ≤ 231
yields fccode = −1 and the 6×6×6 cube RGB; with 232 ≤ i ≤ 255 the
grayscale ramp (i−232)·10+8; a `CSI 38;2;r;g;b m` (components in the
uint8_t range) yields fccode = −1 and RGB (r, g, b); symmetrically for 48
and the background. -/
theorem sgr_extended_colors (v : VTE) :
    (∀ i : Nat, v.csi_argc = 3 → v.csi_argv 0 = 38 → v.csi_argv 1 = 5 →
      v.csi_argv 2 = (i : Int) → 16 ≤ i → i ≤ 231 →
      (csi_attribute v).cattr.fccode = -1 ∧
      (csi_attribute v).cattr.fr = bval ((i - 16) / 36 % 6) ∧
      (csi_attribute v).cattr.fg = bval ((i - 16) / 6 % 6) ∧
      (csi_attribute v).cattr.fb = bval ((i - 16) % 6)) ∧
    (∀ i : Nat, v.csi_argc = 3 → v.csi_argv 0 = 48 → v.csi_argv 1 = 5 →
      v.csi_argv 2 = (i : Int) → 16 ≤ i → i ≤ 231 →
      (csi_attribute v).cattr.bccode = -1 ∧
      (csi_attribute v).cattr.br = bval ((i - 16) / 36 % 6) ∧
      (csi_attribute v).cattr.bg = bval ((i - 16) / 6 % 6) ∧
      (csi_attribute v).cattr.bb = bval ((i - 16) % 6)) ∧
    (∀ i : Nat, v.csi_argc = 3 → v.csi_argv 0 = 38 → v.csi_argv 1 = 5 →
      v.csi_argv 2 = (i : Int) → 232 ≤ i → i ≤ 255 →
      (csi_attribute v).cattr.fccode = -1 ∧
      (csi_attribute v).cattr.fr = (i - 232) * 10 + 8 ∧
      (csi_attribute v).cattr.fg = (i - 232) * 10 + 8 ∧
      (csi_attribute v).cattr.fb = (i - 232) * 10 + 8) ∧
    (∀ i : Nat, v.csi_argc = 3 → v.csi_argv 0 = 48 → v.csi_argv 1 = 5 →
      v.csi_argv 2 = (i : Int) → 232 ≤ i → i ≤ 255 →
      (csi_attribute v).cattr.bccode = -1 ∧
      (csi_attribute v).cattr.br = (i - 232) * 10 + 8 ∧
      (csi_attribute v).cattr.bg = (i - 232) * 10 + 8 ∧
      (csi_attribute v).cattr.bb = (i - 232) * 10 + 8) ∧
    (∀ r g b : Nat, v.csi_argc = 5 → v.csi_argv 0 = 38 → v.csi_argv 1 = 2 →
      v.csi_argv 2 = (r : Int) → v.csi_argv 3 = (g : Int) →
      v.csi_argv 4 = (b : Int) → r ≤ 255 → g ≤ 255 → b ≤ 255 →
      (csi_attribute v).cattr.fccode = -1 ∧
      (csi_attribute v).cattr.fr = r ∧
      (csi_attribute v).cattr.fg = g ∧
      (csi_attribute v).cattr.fb = b) ∧
    (∀ r g b : Nat, v.csi_argc = 5 → v.csi_argv 0 = 48 → v.csi_argv 1 = 2 →
      v.csi_argv 2 = (r : Int) → v.csi_argv 3 = (g : Int) →
      v.csi_argv 4 = (b : Int) → r ≤ 255 → g ≤ 255 → b ≤ 255 →
      (csi_attribute v).cattr.bccode = -1 ∧
      (csi_attribute v).cattr.br = r ∧
      (csi_attribute v).cattr.bg = g ∧
      (csi_attribute v).cattr.bb = b) := by
  refine ⟨?_, ?_, ?_, ?_, ?_, ?_⟩
  · intro i hargc h38 h5 h2 h16 h231
    rw [csi_attribute_cattr,
      csi_attribute_norm_id v (fun hcon => by rw [hargc] at hcon; omega)]
    unfold csi_attribute_attr
    rw [hargc,
      sgr_apply_ext5 v.def_attr v.csi_argv v.cattr (Or.inl h38) h5
        (by rw [h2]; omega),
      h38, show (v.csi_argv 2).toNat = i from by rw [h2]; omega]
    exact sgr256_cube_f v.palette v.cattr i h16 h231
  · intro i hargc h48 h5 h2 h16 h231
    rw [csi_attribute_cattr,
      csi_attribute_norm_id v (fun hcon => by rw [hargc] at hcon; omega)]
    unfold csi_attribute_attr
    rw [hargc,
      sgr_apply_ext5 v.def_attr v.csi_argv v.cattr (Or.inr h48) h5
        (by rw [h2]; omega),
      h48, show (v.csi_argv 2).toNat = i from by rw [h2]; omega]
    exact sgr256_cube_b v.palette v.cattr i h16 h231
  · intro i hargc h38 h5 h2 h232 h255
    rw [csi_attribute_cattr,
      csi_attribute_norm_id v (fun hcon => by rw [hargc] at hcon; omega)]
    unfold csi_attribute_attr
    rw [hargc,
      sgr_apply_ext5 v.def_attr v.csi_argv v.cattr (Or.inl h38) h5
        (by rw [h2]; omega),
      h38, show (v.csi_argv 2).toNat = i from by rw [h2]; omega]
    exact sgr256_gray_f v.palette v.cattr i h232 h255
  · intro i hargc h48 h5 h2 h232 h255
    rw [csi_attribute_cattr,
      csi_attribute_norm_id v (fun hcon => by rw [hargc] at hcon; omega)]
    unfold csi_attribute_attr
    rw [hargc,
      sgr_apply_ext5 v.def_attr v.csi_argv v.cattr (Or.inr h48) h5
        (by rw [h2]; omega),
      h48, show (v.csi_argv 2).toNat = i from by rw [h2]; omega]
    exact sgr256_gray_b v.palette v.cattr i h232 h255
  · intro r g b hargc h38 h2m h2 h3 h4 hr hg hb
    rw [csi_attribute_cattr,
      csi_attribute_norm_id v (fun hcon => by rw [hargc] at hcon; omega)]
    unfold csi_attribute_attr
    rw [hargc,
      sgr_apply_ext2 v.def_attr v.csi_argv v.cattr (Or.inl h38) h2m
        (by rw [h2]; omega) (by rw [h3]; omega) (by rw [h4]; omega),
      h38,
      show (v.csi_argv 2).toNat % 256 = r from by rw [h2]; omega,
      show (v.csi_argv 3).toNat % 256 = g from by rw [h3]; omega,
      show (v.csi_argv 4).toNat % 256 = b from by rw [h4]; omega]
    exact sgrtrue_f v.palette v.cattr r g b
  · intro r g b hargc h48 h2m h2 h3 h4 hr hg hb
    rw [csi_attribute_cattr,
      csi_attribute_norm_id v (fun hcon => by rw [hargc] at hcon; omega)]
    unfold csi_attribute_attr
    rw [hargc,
      sgr_apply_ext2 v.def_attr v.csi_argv v.cattr (Or.inr h48) h2m
        (by rw [h2]; omega) (by rw [h3]; omega) (by rw [h4]; omega),
      h48,
      show (v.csi_argv 2).toNat % 256 = r from by rw [h2]; omega,
      show (v.csi_argv 3).toNat % 256 = g from by rw [h3]; omega,
      show (v.csi_argv 4).toNat % 256 = b from by rw [h4]; omega]
    exact sgrtrue_b v.palette v.cattr r g b

/-- Witness for `sgr_extended_colors`: index 100 of the 256-color cube. -/
theorem sgr_extended_colors_witness :
    (csi_attribute sgrDemoState).cattr.fccode = -1 ∧
    (csi_attribute sgrDemoState).cattr.fr = bval ((100 - 16) / 36 % 6) ∧
    (csi_attribute sgrDemoState).cattr.fg = bval ((100 - 16) / 6 % 6) ∧
    (csi_attribute sgrDemoState).cattr.fb = bval ((100 - 16) % 6) :=
  (sgr_extended_colors sgrDemoState).1 100 (by decide) (by decide)
    (by decide) (by decide) (by decide) (by decide)

/-!
## Claim C8: re-entry counter discipline
-/

/-- Claim C8: the re-entry counter is back at its pre-call value after
every `tsm_vte_input`; while it is non-zero the writer performs only the
plain outbound write (no feedback through the parser); when it is zero
and SEND_RECEIVE_MODE is off, the payload is additionally fed back
through the input pipeline, preceded by ESC when the prepend-escape flag
is set. -/
theorem reentry_counter_discipline (v : VTE) (bytes payload : List Nat) :
    (tsm_vte_input v bytes).parse_cnt = v.parse_cnt ∧
    (v.parse_cnt ≠ 0 → vte_write v payload = vte_write_in_parse v payload) ∧
    (v.parse_cnt = 0 → v.flags.srm = false →
      vte_write v payload =
        vte_write_in_parse
          (tsm_vte_input
            (if v.flags.prepend_escape then tsm_vte_input v [0x1b] else v)
            payload)
          payload) := by
  refine ⟨(input_preserves v bytes).1, ?_, ?_⟩
  · intro h
    simp only [vte_write]
    rw [if_neg (fun hc => h hc.1)]
  · intro h0 hs
    simp only [vte_write]
    rw [if_pos ⟨h0, hs⟩]

/-- Witness for `reentry_counter_discipline`: a parse-locked state keeps
the writer out of the parser, and the echo state feeds the payload back. -/
theorem reentry_counter_discipline_witness :
    ({ freshVTE with parse_cnt := 1 }.parse_cnt ≠ 0 ∧
      vte_write { freshVTE with parse_cnt := 1 } [0x41] =
        vte_write_in_parse { freshVTE with parse_cnt := 1 } [0x41]) ∧
    (echoDemoState.parse_cnt = 0 ∧ echoDemoState.flags.srm = false ∧
      vte_write echoDemoState [0x41] =
        vte_write_in_parse
          (tsm_vte_input
            (if echoDemoState.flags.prepend_escape then
              tsm_vte_input echoDemoState [0x1b]
            else echoDemoState) [0x41]) [0x41]) :=
  ⟨⟨by decide,
    (reentry_counter_discipline { freshVTE with parse_cnt := 1 } [] [0x41]).2.1
      (by decide)⟩,
   ⟨rfl, rfl,
    (reentry_counter_discipline echoDemoState [] [0x41]).2.2 rfl rfl⟩⟩

/-!
## Claim C9: unconsumed keyboard events clear the prepend flag
-/

/-- Claim C9: when `tsm_vte_handle_keyboard` consumes nothing (no Ctrl
payload, no keysym payload, no valid unicode), it returns `false` and
the PREPEND_ESCAPE flag of the resulting state is clear, even though the
Alt modifier set it earlier in the same call. -/
theorem unconsumed_key_clears_prepend (v : VTE) (keysym ascii : Nat)
    (mods : Mods)
    (h : (tsm_vte_handle_keyboard v keysym ascii mods none).2 = false) :
    (tsm_vte_handle_keyboard v keysym ascii mods none).1.flags.prepend_escape
      = false := by
  unfold tsm_vte_handle_keyboard at h ⊢
  cases hc : (if mods.ctrl then
      ctrl_payload (if ascii = 0 then keysym else ascii) else none) with
  | some p => simp [hc] at h
  | none =>
    simp only [hc] at h ⊢
    cases hk : keysym_payload
        (if mods.alt then
          { v with flags := { v.flags with prepend_escape := true } }
         else v) mods keysym with
    | some p => simp [hk] at h
    | none => simp [hk]

/-- Witness for `unconsumed_key_clears_prepend`: Alt held on an
unassigned keysym with no unicode. -/
theorem unconsumed_key_clears_prepend_witness :
    (tsm_vte_handle_keyboard freshVTE 0xfff1 0 ⟨false, false, true⟩ none).2
        = false ∧
    (tsm_vte_handle_keyboard freshVTE 0xfff1 0 ⟨false, false, true⟩
        none).1.flags.prepend_escape = false :=
  ⟨by decide,
   unconsumed_key_clears_prepend freshVTE 0xfff1 0 ⟨false, false, true⟩
     (by decide)⟩

/-!
## Claim C10: DECSCL always soft-resets
-/

/-- Claim C10: a CSI final byte `p` with none of the `>`, `!`, `$`
intermediate flags dispatches to `csi_compat_mode`, which performs the
full soft reset unconditionally — for every parameter value, including
unrecognized compatibility levels, which change nothing else; only
argument 61 additionally sets the 7-bit flag and reloads G0/G1, and only
62/63/64 set the 8-bit flag (plus C1 when the second argument is 1 or 2)
and reload G0/G1. -/
theorem decscl_soft_reset (v : VTE)
    (hgt : v.csi_flags &&& CSI_GT = 0) (hbang : v.csi_flags &&& CSI_BANG = 0)
    (hcash : v.csi_flags &&& CSI_CASH = 0) :
    do_csi v 0x70 = csi_compat_mode (csi_bump v) ∧
    (∀ w : VTE, w.csi_argv 0 ≠ 61 → w.csi_argv 0 ≠ 62 → w.csi_argv 0 ≠ 63 →
      w.csi_argv 0 ≠ 64 → csi_compat_mode w = csi_soft_reset w) ∧
    (∀ w : VTE, w.csi_argv 0 = 61 →
      csi_compat_mode w =
        { csi_soft_reset w with
            flags := { (csi_soft_reset w).flags with mode7bit := true },
            g0 := Charset.unicodeLower,
            g1 := Charset.decSupplementalGraphics }) ∧
    (∀ w : VTE, (w.csi_argv 0 = 62 ∨ w.csi_argv 0 = 63 ∨ w.csi_argv 0 = 64) →
      csi_compat_mode w =
        (if (csi_soft_reset w).csi_argv 1 = 1 ∨
            (csi_soft_reset w).csi_argv 1 = 2 then
          { csi_soft_reset w with
              flags := { (csi_soft_reset w).flags with
                use_c1 := true, mode8bit := true },
              g0 := Charset.unicodeLower,
              g1 := Charset.decSupplementalGraphics }
        else
          { csi_soft_reset w with
              flags := { (csi_soft_reset w).flags with mode8bit := true },
              g0 := Charset.unicodeLower,
              g1 := Charset.decSupplementalGraphics })) := by
  have ha : ∀ w : VTE, (csi_soft_reset w).csi_argv = w.csi_argv :=
    fun w => rfl
  refine ⟨?_, ?_, ?_, ?_⟩
  · have hf : (csi_bump v).csi_flags = v.csi_flags := by
      unfold csi_bump; split <;> rfl
    have ht : csiTag 0x70 = CsiTag.presetOrCompat := by decide
    simp [do_csi, do_csi_post, ht, hf, hgt, hbang, hcash]
  · intro w h61 h62 h63 h64
    simp only [csi_compat_mode]
    rw [if_neg (by rw [ha w]; exact h61),
      if_neg (by rw [ha w]; rintro (h | h | h) <;> omega)]
  · intro w h61
    simp only [csi_compat_mode]
    rw [if_pos (by rw [ha w]; exact h61)]
  · intro w h
    simp only [csi_compat_mode]
    rw [if_neg (by rw [ha w]; rcases h with h | h | h <;> omega),
      if_pos (by rw [ha w]; exact h)]
    split <;> rfl

/-- Witness for `decscl_soft_reset` at the collected `CSI 62;2 p`. -/
theorem decscl_soft_reset_witness :
    decsclDemoState.csi_flags &&& CSI_GT = 0 ∧
    decsclDemoState.csi_flags &&& CSI_BANG = 0 ∧
    decsclDemoState.csi_flags &&& CSI_CASH = 0 ∧
    do_csi decsclDemoState 0x70 = csi_compat_mode (csi_bump decsclDemoState) :=
  ⟨by decide, by decide, by decide,
   (decscl_soft_reset decsclDemoState (by decide) (by decide) (by decide)).1⟩

